import Mathlib

/-!
Verification of the NXT standalone backend sources.

Shallow embedding of:
* `src/backend/d3d12/BufferD3D12.cpp` (usage-to-state translation, barrier
  elision, buffer creation, map-read request tracking),
* `src/backend/opengl/CommandBufferGL.cpp` (push-constant and vertex-input
  elision trackers, command-stream execution),
* `src/backend/vulkan/VulkanInfo.cpp` (enumeration error propagation).
-/

namespace NXT

/-! ## D3D12 buffer usage translation (`BufferD3D12.cpp`) -/

/-- `nxt::BufferUsageBit`: an abstract buffer usage bitset.  Each field models
one bit of the NXT usage mask. -/
structure BufferUsage where
  mapRead : Bool
  mapWrite : Bool
  transferSrc : Bool
  transferDst : Bool
  index : Bool
  vertex : Bool
  uniform : Bool
  storage : Bool
deriving DecidableEq, Repr

/-- Bitwise union of two abstract usage bitsets (`a | b` on `nxt::BufferUsageBit`). -/
def BufferUsage.union (a b : BufferUsage) : BufferUsage where
  mapRead := a.mapRead || b.mapRead
  mapWrite := a.mapWrite || b.mapWrite
  transferSrc := a.transferSrc || b.transferSrc
  transferDst := a.transferDst || b.transferDst
  index := a.index || b.index
  vertex := a.vertex || b.vertex
  uniform := a.uniform || b.uniform
  storage := a.storage || b.storage

/-- `D3D12_RESOURCE_STATE_COMMON` -/
def D3D12_RESOURCE_STATE_COMMON : Nat := 0x0
/-- `D3D12_RESOURCE_STATE_VERTEX_AND_CONSTANT_BUFFER` -/
def D3D12_RESOURCE_STATE_VERTEX_AND_CONSTANT_BUFFER : Nat := 0x1
/-- `D3D12_RESOURCE_STATE_INDEX_BUFFER` -/
def D3D12_RESOURCE_STATE_INDEX_BUFFER : Nat := 0x2
/-- `D3D12_RESOURCE_STATE_UNORDERED_ACCESS` -/
def D3D12_RESOURCE_STATE_UNORDERED_ACCESS : Nat := 0x8
/-- `D3D12_RESOURCE_STATE_COPY_DEST` -/
def D3D12_RESOURCE_STATE_COPY_DEST : Nat := 0x400
/-- `D3D12_RESOURCE_STATE_COPY_SOURCE` -/
def D3D12_RESOURCE_STATE_COPY_SOURCE : Nat := 0x800
/-- `D3D12_RESOURCE_STATE_GENERIC_READ` (the d3d12.h combination
`0x1 | 0x2 | 0x40 | 0x80 | 0x200 | 0x800`). -/
def D3D12_RESOURCE_STATE_GENERIC_READ : Nat := 0xAC3

/-- `D3D12BufferUsage` (BufferD3D12.cpp, lines 37-57): translate an abstract
usage bitset into a native `D3D12_RESOURCE_STATES` mask by OR-ing the native
state of every set bit into an accumulator that starts at `COMMON` (0). -/
def D3D12BufferUsage (usage : BufferUsage) : Nat :=
  let resourceState := D3D12_RESOURCE_STATE_COMMON
  let resourceState :=
    if usage.transferSrc then resourceState ||| D3D12_RESOURCE_STATE_COPY_SOURCE
    else resourceState
  let resourceState :=
    if usage.transferDst then resourceState ||| D3D12_RESOURCE_STATE_COPY_DEST
    else resourceState
  let resourceState :=
    if usage.vertex || usage.uniform then
      resourceState ||| D3D12_RESOURCE_STATE_VERTEX_AND_CONSTANT_BUFFER
    else resourceState
  let resourceState :=
    if usage.index then resourceState ||| D3D12_RESOURCE_STATE_INDEX_BUFFER
    else resourceState
  let resourceState :=
    if usage.storage then resourceState ||| D3D12_RESOURCE_STATE_UNORDERED_ACCESS
    else resourceState
  resourceState

/-- `D3D12_HEAP_TYPE` values used by the buffer code. -/
inductive HeapType where
  | readback
  | upload
  | default
deriving DecidableEq, Repr

/-- `D3D12HeapType` (BufferD3D12.cpp, lines 59-67): MapRead wins over MapWrite,
everything else goes to the default heap. -/
def D3D12HeapType (allowedUsage : BufferUsage) : HeapType :=
  if allowedUsage.mapRead then HeapType.readback
  else if allowedUsage.mapWrite then HeapType.upload
  else HeapType.default

/-- The placement decision of `Buffer::Buffer` (BufferD3D12.cpp, lines 84-97):
the heap type from the allowed usage and the initial resource state, which is
the translated current usage plus the state the heap requires. -/
def bufferCreationState (allowedUsage currentUsage : BufferUsage) : HeapType × Nat :=
  let heapType := D3D12HeapType allowedUsage
  let bufferUsage := D3D12BufferUsage currentUsage
  let bufferUsage :=
    if heapType = HeapType.readback then bufferUsage ||| D3D12_RESOURCE_STATE_COPY_DEST
    else bufferUsage
  let bufferUsage :=
    if heapType = HeapType.upload then bufferUsage ||| D3D12_RESOURCE_STATE_GENERIC_READ
    else bufferUsage
  (heapType, bufferUsage)

/-- A `D3D12_RESOURCE_BARRIER` of type transition, as filled in by
`Buffer::GetResourceTransitionBarrier`. -/
structure ResourceBarrier where
  stateBefore : Nat
  stateAfter : Nat
deriving DecidableEq, Repr

/-- `Buffer::GetResourceTransitionBarrier` (BufferD3D12.cpp, lines 116-141).
Returns `some barrier` exactly when the source returns `true` and writes the
barrier out-parameter; `none` when it returns `false`. -/
def GetResourceTransitionBarrier (allowedUsage currentUsage targetUsage : BufferUsage) :
    Option ResourceBarrier :=
  if allowedUsage.mapRead || allowedUsage.mapWrite then
    none
  else
    let stateBefore := D3D12BufferUsage currentUsage
    let stateAfter := D3D12BufferUsage targetUsage
    if stateBefore = stateAfter then
      none
    else
      some { stateBefore := stateBefore, stateAfter := stateAfter }

/-- `Buffer::TransitionUsageImpl` (BufferD3D12.cpp, lines 173-179): the list of
barriers recorded on the pending command list (one if
`GetResourceTransitionBarrier` produced one, none otherwise). -/
def TransitionUsageImpl (allowedUsage currentUsage targetUsage : BufferUsage) :
    List ResourceBarrier :=
  match GetResourceTransitionBarrier allowedUsage currentUsage targetUsage with
  | some barrier => [barrier]
  | none => []

/-- The allowed-usage bitset that is exactly `{MapRead, TransferDst}`. -/
def mapReadTransferDstUsage : BufferUsage :=
  ⟨true, false, false, true, false, false, false, false⟩

/-- The allowed-usage bitset that is exactly `{MapWrite, TransferSrc}`. -/
def mapWriteTransferSrcUsage : BufferUsage :=
  ⟨false, true, true, false, false, false, false, false⟩

/-- The translation table of `D3D12BufferUsage` expressed on the five booleans
it actually consults (Vertex and Uniform share one native state, so they enter
only through their disjunction).  `D3D12BufferUsage` is definitionally this
function applied to the fields of the usage bitset. -/
def d3d12StateOf (ts td vu ix st : Bool) : Nat :=
  let resourceState := D3D12_RESOURCE_STATE_COMMON
  let resourceState :=
    if ts then resourceState ||| D3D12_RESOURCE_STATE_COPY_SOURCE else resourceState
  let resourceState :=
    if td then resourceState ||| D3D12_RESOURCE_STATE_COPY_DEST else resourceState
  let resourceState :=
    if vu then resourceState ||| D3D12_RESOURCE_STATE_VERTEX_AND_CONSTANT_BUFFER
    else resourceState
  let resourceState :=
    if ix then resourceState ||| D3D12_RESOURCE_STATE_INDEX_BUFFER else resourceState
  let resourceState :=
    if st then resourceState ||| D3D12_RESOURCE_STATE_UNORDERED_ACCESS else resourceState
  resourceState

lemma D3D12BufferUsage_eq_stateOf (u : BufferUsage) :
    D3D12BufferUsage u =
      d3d12StateOf u.transferSrc u.transferDst (u.vertex || u.uniform) u.index u.storage :=
  rfl

lemma d3d12StateOf_or (x1 x2 x3 x4 x5 y1 y2 y3 y4 y5 : Bool) :
    d3d12StateOf (x1 || y1) (x2 || y2) (x3 || y3) (x4 || y4) (x5 || y5) =
      d3d12StateOf x1 x2 x3 x4 x5 ||| d3d12StateOf y1 y2 y3 y4 y5 := by
  revert x1 x2 x3 x4 x5 y1 y2 y3 y4 y5
  decide

lemma bool_or_or_or_comm (a b c d : Bool) :
    ((a || b) || (c || d)) = ((a || c) || (b || d)) := by
  revert a b c d
  decide

lemma nat_lor_self (c : Nat) : c ||| c = c :=
  Nat.eq_of_testBit_eq fun i => by rw [Nat.testBit_lor, Bool.or_self]

/-! ## Map-read request tracking (`BufferD3D12.cpp`, lines 207-228)

`MapReadRequestTracker` holds a `SerialQueue<Request>` of in-flight map-read
requests.  `Track` enqueues a request with the device's current serial;
`Tick(finishedSerial)` fires the callback for and removes every request whose
serial is `≤ finishedSerial`; the destructor asserts the queue is empty. -/

/-- The `Request` stored by `MapReadRequestTracker::Track`. -/
structure MapRequest where
  buffer : Nat
  mapSerial : Nat
  data : Nat
deriving DecidableEq, Repr

/-- The tracker's in-flight `SerialQueue`: requests paired with the device
serial they were enqueued under, in enqueue order. -/
abbrev RequestQueue : Type := List (MapRequest × Nat)

/-- `MapReadRequestTracker::Track` (lines 214-221): enqueue the request with
the device's current serial. -/
def trackRequest (q : RequestQueue) (request : MapRequest) (deviceSerial : Nat) :
    RequestQueue :=
  List.append q [(request, deviceSerial)]

/-- `MapReadRequestTracker::Tick` (lines 223-228): the requests fired
(`IterateUpTo(finishedSerial)`) and the queue after `ClearUpTo(finishedSerial)`,
which removes exactly the entries with serial `≤ finishedSerial`. -/
def tickRequests (q : RequestQueue) (finishedSerial : Nat) :
    List (MapRequest × Nat) × RequestQueue :=
  (List.filter (fun p => p.2 ≤ finishedSerial) q,
   List.filter (fun p => decide (finishedSerial < p.2)) q)

/-- The destructor's `ASSERT(mInflightRequests.Empty())` fires exactly when
the queue still holds an in-flight request. -/
def destructorAssertFires (q : RequestQueue) : Bool :=
  !(List.isEmpty q)

/-- One operation performed on a `MapReadRequestTracker` during its life. -/
inductive TrackerOp where
  | track (request : MapRequest) (deviceSerial : Nat)
  | tick (finishedSerial : Nat)
deriving DecidableEq, Repr

/-- Run a sequence of tracker operations over an in-flight queue. -/
def runTrackerOps : List TrackerOp → RequestQueue → RequestQueue
  | [], q => q
  | TrackerOp.track r s :: ops, q => runTrackerOps ops (trackRequest q r s)
  | TrackerOp.tick f :: ops, q => runTrackerOps ops (tickRequests q f).2

/-- Does the operation list contain a `Tick` whose finished serial covers
(`≥`) the given serial? -/
def hasCoveringTick (s : Nat) : List TrackerOp → Bool
  | [] => false
  | TrackerOp.track _ _ :: ops => hasCoveringTick s ops
  | TrackerOp.tick f :: ops => s ≤ f || hasCoveringTick s ops

/-- Every `Track` in the operation list is followed, later in the list, by a
`Tick` whose finished serial covers the tracked request's serial. -/
def allTracksTicked : List TrackerOp → Bool
  | [] => true
  | TrackerOp.track _ s :: ops => hasCoveringTick s ops && allTracksTicked ops
  | TrackerOp.tick _ :: ops => allTracksTicked ops

lemma runTrackerOps_empty_of_covered (ops : List TrackerOp) (q : RequestQueue)
    (hops : allTracksTicked ops = true)
    (hq : ∀ p ∈ q, hasCoveringTick p.2 ops = true) :
    runTrackerOps ops q = [] := by
  induction ops generalizing q with
  | nil =>
    cases q with
    | nil => rfl
    | cons p rest => exact absurd (hq p (List.mem_cons_self p rest)) (by simp [hasCoveringTick])
  | cons op ops ih =>
    cases op with
    | track r s =>
      rw [allTracksTicked, Bool.and_eq_true] at hops
      refine ih (trackRequest q r s) hops.2 ?_
      intro p hp
      rcases List.mem_append.mp hp with hp | hp
      · exact hq p hp
      · rcases List.mem_singleton.mp hp with rfl
        exact hops.1
    | tick f =>
      rw [allTracksTicked] at hops
      refine ih (tickRequests q f).2 hops ?_
      intro p hp
      have hmem : p ∈ q ∧ f < p.2 := by
        have := List.mem_filter.mp hp
        exact ⟨this.1, by simpa using this.2⟩
      have hcov := hq p hmem.1
      rw [hasCoveringTick, Bool.or_eq_true] at hcov
      rcases hcov with hle | hrest
      · exact absurd hmem.2 (by simp at hle; omega)
      · exact hrest

/-! ## Vulkan enumeration error propagation (`VulkanInfo.cpp`)

`GatherGlobalInfo` and `GatherDeviceInfo` issue a fixed sequence of native
enumeration calls.  Count-only queries accept `VK_SUCCESS` or `VK_INCOMPLETE`
(0 items yields success, otherwise incomplete); fill calls accept only
`VK_SUCCESS`.  The first unacceptable result returns `false` immediately.
The environments below record what each native call would return; the layer
and extension payloads only set informational flags and cannot change the
return value, so they are not modelled. -/

/-- `VkResult`, collapsed to the values the code distinguishes. -/
inductive VkResult where
  | success
  | incomplete
  | error (code : Nat)
deriving DecidableEq, Repr

/-- The acceptance test applied to every count-only enumeration query:
`result != VK_SUCCESS && result != VK_INCOMPLETE` returns `false`. -/
def vkCountQueryOk (r : VkResult) : Bool :=
  !(r ≠ VkResult.success && r ≠ VkResult.incomplete)

/-- The native calls issued by `GatherGlobalInfo` and `GatherDeviceInfo` that
return a `VkResult`. -/
inductive VkCall where
  | enumerateInstanceLayersCount
  | enumerateInstanceLayersFill
  | enumerateInstanceExtensionsCount
  | enumerateInstanceExtensionsFill
  | enumerateDeviceLayersCount
  | enumerateDeviceLayersFill
  | enumerateDeviceExtensionsCount
  | enumerateDeviceExtensionsFill
deriving DecidableEq, Repr

/-- Results the driver would hand to each enumeration call of
`GatherGlobalInfo`. -/
structure GlobalEnv where
  instanceLayersCount : VkResult
  instanceLayersFill : VkResult
  instanceExtensionsCount : VkResult
  instanceExtensionsFill : VkResult
deriving DecidableEq, Repr

/-- Results the driver would hand to each enumeration call of
`GatherDeviceInfo` (its `GetPhysicalDevice*` calls return `void` and cannot
fail). -/
structure DeviceEnv where
  deviceLayersCount : VkResult
  deviceLayersFill : VkResult
  deviceExtensionsCount : VkResult
  deviceExtensionsFill : VkResult
deriving DecidableEq, Repr

/-- `GatherGlobalInfo` (VulkanInfo.cpp, lines 39-93): the returned success
flag and the enumeration calls actually issued, in order. -/
def GatherGlobalInfo (env : GlobalEnv) : Bool × List VkCall :=
  if !vkCountQueryOk env.instanceLayersCount then
    (false, [VkCall.enumerateInstanceLayersCount])
  else if env.instanceLayersFill ≠ VkResult.success then
    (false, [VkCall.enumerateInstanceLayersCount, VkCall.enumerateInstanceLayersFill])
  else if !vkCountQueryOk env.instanceExtensionsCount then
    (false, [VkCall.enumerateInstanceLayersCount, VkCall.enumerateInstanceLayersFill,
      VkCall.enumerateInstanceExtensionsCount])
  else if env.instanceExtensionsFill ≠ VkResult.success then
    (false, [VkCall.enumerateInstanceLayersCount, VkCall.enumerateInstanceLayersFill,
      VkCall.enumerateInstanceExtensionsCount, VkCall.enumerateInstanceExtensionsFill])
  else
    (true, [VkCall.enumerateInstanceLayersCount, VkCall.enumerateInstanceLayersFill,
      VkCall.enumerateInstanceExtensionsCount, VkCall.enumerateInstanceExtensionsFill])

/-- `GatherDeviceInfo` (VulkanInfo.cpp, lines 113-184): the returned success
flag and the fallible enumeration calls actually issued, in order. -/
def GatherDeviceInfo (env : DeviceEnv) : Bool × List VkCall :=
  if !vkCountQueryOk env.deviceLayersCount then
    (false, [VkCall.enumerateDeviceLayersCount])
  else if env.deviceLayersFill ≠ VkResult.success then
    (false, [VkCall.enumerateDeviceLayersCount, VkCall.enumerateDeviceLayersFill])
  else if !vkCountQueryOk env.deviceExtensionsCount then
    (false, [VkCall.enumerateDeviceLayersCount, VkCall.enumerateDeviceLayersFill,
      VkCall.enumerateDeviceExtensionsCount])
  else if env.deviceExtensionsFill ≠ VkResult.success then
    (false, [VkCall.enumerateDeviceLayersCount, VkCall.enumerateDeviceLayersFill,
      VkCall.enumerateDeviceExtensionsCount, VkCall.enumerateDeviceExtensionsFill])
  else
    (true, [VkCall.enumerateDeviceLayersCount, VkCall.enumerateDeviceLayersFill,
      VkCall.enumerateDeviceExtensionsCount, VkCall.enumerateDeviceExtensionsFill])

/-- The result the environment assigns to a call of `GatherGlobalInfo`. -/
def globalCallResult (env : GlobalEnv) : VkCall → VkResult
  | VkCall.enumerateInstanceLayersCount => env.instanceLayersCount
  | VkCall.enumerateInstanceLayersFill => env.instanceLayersFill
  | VkCall.enumerateInstanceExtensionsCount => env.instanceExtensionsCount
  | VkCall.enumerateInstanceExtensionsFill => env.instanceExtensionsFill
  | _ => VkResult.success

/-- The result the environment assigns to a call of `GatherDeviceInfo`. -/
def deviceCallResult (env : DeviceEnv) : VkCall → VkResult
  | VkCall.enumerateDeviceLayersCount => env.deviceLayersCount
  | VkCall.enumerateDeviceLayersFill => env.deviceLayersFill
  | VkCall.enumerateDeviceExtensionsCount => env.deviceExtensionsCount
  | VkCall.enumerateDeviceExtensionsFill => env.deviceExtensionsFill
  | _ => VkResult.success

/-- Is a call a count-only query (where `VK_INCOMPLETE` is also accepted)? -/
def isCountQuery : VkCall → Bool
  | VkCall.enumerateInstanceLayersCount => true
  | VkCall.enumerateInstanceExtensionsCount => true
  | VkCall.enumerateDeviceLayersCount => true
  | VkCall.enumerateDeviceExtensionsCount => true
  | _ => false

/-- A call's result is acceptable: `VK_SUCCESS` always, `VK_INCOMPLETE` only
on count-only queries. -/
def callAccepted (c : VkCall) (r : VkResult) : Bool :=
  if isCountQuery c then vkCountQueryOk r else decide (r = VkResult.success)

/-- A gather run swallows no failure: the trace is a run of accepted calls,
optionally ended by one unaccepted call; the flag is `true` exactly when no
call was rejected; and no call is retried. -/
def noSwallowedFailure (res : VkCall → VkResult) (run : Bool × List VkCall) : Prop :=
  (run.1 = true ↔ ∀ c ∈ run.2, callAccepted c (res c) = true) ∧
  run.2.Nodup ∧
  (run.1 = false →
    ∃ pre c, run.2 = List.append pre [c] ∧
      (∀ c' ∈ pre, callAccepted c' (res c') = true) ∧
      callAccepted c (res c) = false)

lemma noSwallow_of_ok (res : VkCall → VkResult) (calls : List VkCall)
    (h : ∀ c ∈ calls, callAccepted c (res c) = true) (hn : calls.Nodup) :
    noSwallowedFailure res (true, calls) :=
  ⟨by simpa using h, hn, by simp⟩

lemma noSwallow_of_fail (res : VkCall → VkResult) (pre : List VkCall) (c : VkCall)
    (hpre : ∀ c' ∈ pre, callAccepted c' (res c') = true)
    (hc : callAccepted c (res c) = false)
    (hn : (List.append pre [c]).Nodup) :
    noSwallowedFailure res (false, List.append pre [c]) := by
  refine ⟨?_, hn, fun _ => ⟨pre, c, rfl, hpre, hc⟩⟩
  constructor
  · intro h; cases h
  · intro hall
    have := hall c (by simp)
    rw [hc] at this
    cases this

end NXT

namespace NXT

/-- C8: destroying a `MapReadRequestTracker` that still holds in-flight
requests fires the destructor's debug assertion, and if every tracked
request's serial was covered by a later `Tick`, the in-flight queue is empty
at destruction and the assertion never fires. -/
theorem c8_tracker_teardown_assertion (ops : List TrackerOp) :
    (runTrackerOps ops [] ≠ [] → destructorAssertFires (runTrackerOps ops []) = true) ∧
    (allTracksTicked ops = true → destructorAssertFires (runTrackerOps ops []) = false) := by
  constructor
  · intro hne
    cases h : runTrackerOps ops [] with
    | nil => exact absurd h hne
    | cons p rest => simp [destructorAssertFires, List.isEmpty]
  · intro hticked
    have hempty : runTrackerOps ops [] = [] :=
      runTrackerOps_empty_of_covered ops [] hticked (by intro p hp; cases hp)
    simp [hempty, destructorAssertFires, List.isEmpty]

/-- C9: `GatherGlobalInfo` and `GatherDeviceInfo` never swallow an
enumeration failure: each returns `false` as soon as a call's result is
unacceptable (`VK_INCOMPLETE` being additionally acceptable on count-only
queries), issues no call twice, and returns `true` exactly when every call it
issued was accepted. -/
theorem c9_gather_no_swallowed_failure (genv : GlobalEnv) (denv : DeviceEnv) :
    noSwallowedFailure (globalCallResult genv) (GatherGlobalInfo genv) ∧
    noSwallowedFailure (deviceCallResult denv) (GatherDeviceInfo denv) := by
  constructor
  · by_cases h1 : vkCountQueryOk genv.instanceLayersCount = true
    case neg =>
      rw [Bool.not_eq_true] at h1
      have he : GatherGlobalInfo genv =
          (false, List.append [] [VkCall.enumerateInstanceLayersCount]) := by
        simp [GatherGlobalInfo, h1]
      rw [he]
      exact noSwallow_of_fail _ _ _ (by simp)
        (by simpa [callAccepted, isCountQuery, globalCallResult] using h1) (by decide)
    case pos =>
    by_cases h2 : genv.instanceLayersFill = VkResult.success
    case neg =>
      have he : GatherGlobalInfo genv =
          (false, List.append [VkCall.enumerateInstanceLayersCount]
            [VkCall.enumerateInstanceLayersFill]) := by
        simp [GatherGlobalInfo, h1, h2]
      rw [he]
      refine noSwallow_of_fail _ _ _ ?_
        (by simpa [callAccepted, isCountQuery, globalCallResult] using h2) (by decide)
      intro c' hc'
      rcases List.mem_singleton.mp hc' with rfl
      simpa [callAccepted, isCountQuery, globalCallResult] using h1
    case pos =>
    by_cases h3 : vkCountQueryOk genv.instanceExtensionsCount = true
    case neg =>
      rw [Bool.not_eq_true] at h3
      have he : GatherGlobalInfo genv =
          (false, List.append [VkCall.enumerateInstanceLayersCount,
            VkCall.enumerateInstanceLayersFill]
            [VkCall.enumerateInstanceExtensionsCount]) := by
        simp [GatherGlobalInfo, h1, h2, h3]
      rw [he]
      refine noSwallow_of_fail _ _ _ ?_
        (by simpa [callAccepted, isCountQuery, globalCallResult] using h3) (by decide)
      intro c' hc'
      fin_cases hc' <;> simp_all [callAccepted, isCountQuery, globalCallResult]
    case pos =>
    by_cases h4 : genv.instanceExtensionsFill = VkResult.success
    case neg =>
      have he : GatherGlobalInfo genv =
          (false, List.append [VkCall.enumerateInstanceLayersCount,
            VkCall.enumerateInstanceLayersFill, VkCall.enumerateInstanceExtensionsCount]
            [VkCall.enumerateInstanceExtensionsFill]) := by
        simp [GatherGlobalInfo, h1, h2, h3, h4]
      rw [he]
      refine noSwallow_of_fail _ _ _ ?_
        (by simpa [callAccepted, isCountQuery, globalCallResult] using h4) (by decide)
      intro c' hc'
      fin_cases hc' <;> simp_all [callAccepted, isCountQuery, globalCallResult]
    case pos =>
      have he : GatherGlobalInfo genv =
          (true, [VkCall.enumerateInstanceLayersCount, VkCall.enumerateInstanceLayersFill,
            VkCall.enumerateInstanceExtensionsCount,
            VkCall.enumerateInstanceExtensionsFill]) := by
        simp [GatherGlobalInfo, h1, h2, h3, h4]
      rw [he]
      refine noSwallow_of_ok _ _ ?_ (by decide)
      intro c' hc'
      fin_cases hc' <;> simp_all [callAccepted, isCountQuery, globalCallResult]
  · by_cases h1 : vkCountQueryOk denv.deviceLayersCount = true
    case neg =>
      rw [Bool.not_eq_true] at h1
      have he : GatherDeviceInfo denv =
          (false, List.append [] [VkCall.enumerateDeviceLayersCount]) := by
        simp [GatherDeviceInfo, h1]
      rw [he]
      exact noSwallow_of_fail _ _ _ (by simp)
        (by simpa [callAccepted, isCountQuery, deviceCallResult] using h1) (by decide)
    case pos =>
    by_cases h2 : denv.deviceLayersFill = VkResult.success
    case neg =>
      have he : GatherDeviceInfo denv =
          (false, List.append [VkCall.enumerateDeviceLayersCount]
            [VkCall.enumerateDeviceLayersFill]) := by
        simp [GatherDeviceInfo, h1, h2]
      rw [he]
      refine noSwallow_of_fail _ _ _ ?_
        (by simpa [callAccepted, isCountQuery, deviceCallResult] using h2) (by decide)
      intro c' hc'
      rcases List.mem_singleton.mp hc' with rfl
      simpa [callAccepted, isCountQuery, deviceCallResult] using h1
    case pos =>
    by_cases h3 : vkCountQueryOk denv.deviceExtensionsCount = true
    case neg =>
      rw [Bool.not_eq_true] at h3
      have he : GatherDeviceInfo denv =
          (false, List.append [VkCall.enumerateDeviceLayersCount,
            VkCall.enumerateDeviceLayersFill]
            [VkCall.enumerateDeviceExtensionsCount]) := by
        simp [GatherDeviceInfo, h1, h2, h3]
      rw [he]
      refine noSwallow_of_fail _ _ _ ?_
        (by simpa [callAccepted, isCountQuery, deviceCallResult] using h3) (by decide)
      intro c' hc'
      fin_cases hc' <;> simp_all [callAccepted, isCountQuery, deviceCallResult]
    case pos =>
    by_cases h4 : denv.deviceExtensionsFill = VkResult.success
    case neg =>
      have he : GatherDeviceInfo denv =
          (false, List.append [VkCall.enumerateDeviceLayersCount,
            VkCall.enumerateDeviceLayersFill, VkCall.enumerateDeviceExtensionsCount]
            [VkCall.enumerateDeviceExtensionsFill]) := by
        simp [GatherDeviceInfo, h1, h2, h3, h4]
      rw [he]
      refine noSwallow_of_fail _ _ _ ?_
        (by simpa [callAccepted, isCountQuery, deviceCallResult] using h4) (by decide)
      intro c' hc'
      fin_cases hc' <;> simp_all [callAccepted, isCountQuery, deviceCallResult]
    case pos =>
      have he : GatherDeviceInfo denv =
          (true, [VkCall.enumerateDeviceLayersCount, VkCall.enumerateDeviceLayersFill,
            VkCall.enumerateDeviceExtensionsCount,
            VkCall.enumerateDeviceExtensionsFill]) := by
        simp [GatherDeviceInfo, h1, h2, h3, h4]
      rw [he]
      refine noSwallow_of_ok _ _ ?_ (by decide)
      intro c' hc'
      fin_cases hc' <;> simp_all [callAccepted, isCountQuery, deviceCallResult]

/-- Witness for C8: one tracked request at serial 3, ticked at serial 5 — the
assertion does not fire; and the same trace without the tick leaves the queue
non-empty, so the assertion fires. -/
theorem c8_tracker_teardown_assertion_witness :
    (runTrackerOps [TrackerOp.track ⟨1, 7, 0⟩ 3] [] ≠ [] →
      destructorAssertFires (runTrackerOps [TrackerOp.track ⟨1, 7, 0⟩ 3] []) = true) ∧
    (allTracksTicked [TrackerOp.track ⟨1, 7, 0⟩ 3, TrackerOp.tick 5] = true →
      destructorAssertFires
        (runTrackerOps [TrackerOp.track ⟨1, 7, 0⟩ 3, TrackerOp.tick 5] []) = false) ∧
    destructorAssertFires (runTrackerOps [TrackerOp.track ⟨1, 7, 0⟩ 3] []) = true :=
  ⟨(c8_tracker_teardown_assertion [TrackerOp.track ⟨1, 7, 0⟩ 3]).1,
   (c8_tracker_teardown_assertion [TrackerOp.track ⟨1, 7, 0⟩ 3, TrackerOp.tick 5]).2,
   (c8_tracker_teardown_assertion [TrackerOp.track ⟨1, 7, 0⟩ 3]).1 (by decide)⟩

/-! ## OpenGL command buffer (`CommandBufferGL.cpp`)

The OpenGL executor issues native GL calls while two elision trackers
(`PushConstantTracker`, `InputBufferTracker`) decide which state must be
re-applied.  GL calls are modelled as records in an emitted list. -/

/-- `GL_ELEMENT_ARRAY_BUFFER` -/
def GL_ELEMENT_ARRAY_BUFFER : Nat := 0x8893
/-- `GL_ARRAY_BUFFER` -/
def GL_ARRAY_BUFFER : Nat := 0x8892
/-- `GL_PIXEL_PACK_BUFFER` -/
def GL_PIXEL_PACK_BUFFER : Nat := 0x88EB
/-- `GL_PIXEL_UNPACK_BUFFER` -/
def GL_PIXEL_UNPACK_BUFFER : Nat := 0x88EC
/-- `GL_UNIFORM_BUFFER` -/
def GL_UNIFORM_BUFFER : Nat := 0x8A11
/-- `GL_SHADER_STORAGE_BUFFER` -/
def GL_SHADER_STORAGE_BUFFER : Nat := 0x90D2
/-- `GL_READ_FRAMEBUFFER` -/
def GL_READ_FRAMEBUFFER : Nat := 0x8CA8
/-- `GL_DRAW_FRAMEBUFFER` -/
def GL_DRAW_FRAMEBUFFER : Nat := 0x8CA9
/-- `GL_COLOR_ATTACHMENT0` -/
def GL_COLOR_ATTACHMENT0 : Nat := 0x8CE0
/-- `GL_DEPTH_ATTACHMENT` -/
def GL_DEPTH_ATTACHMENT : Nat := 0x8D00
/-- `GL_STENCIL_ATTACHMENT` -/
def GL_STENCIL_ATTACHMENT : Nat := 0x8D20
/-- `GL_DEPTH_STENCIL_ATTACHMENT` -/
def GL_DEPTH_STENCIL_ATTACHMENT : Nat := 0x821A
/-- `GL_TEXTURE_2D` -/
def GL_TEXTURE_2D : Nat := 0x0DE1
/-- `GL_TEXTURE0` -/
def GL_TEXTURE0 : Nat := 0x84C0
/-- `GL_COLOR` -/
def GL_COLOR : Nat := 0x1800
/-- `GL_DEPTH` -/
def GL_DEPTH : Nat := 0x1801
/-- `GL_STENCIL` -/
def GL_STENCIL : Nat := 0x1802
/-- `GL_DEPTH_STENCIL` -/
def GL_DEPTH_STENCIL : Nat := 0x84F9
/-- `GL_UNPACK_ROW_LENGTH` -/
def GL_UNPACK_ROW_LENGTH : Nat := 0x0CF2
/-- `GL_PACK_ROW_LENGTH` -/
def GL_PACK_ROW_LENGTH : Nat := 0x0D02
/-- `GL_UNSIGNED_SHORT` -/
def GL_UNSIGNED_SHORT : Nat := 0x1403
/-- `GL_UNSIGNED_INT` -/
def GL_UNSIGNED_INT : Nat := 0x1405
/-- `GL_FLOAT` -/
def GL_FLOAT : Nat := 0x1406
/-- `GL_ALL_BARRIER_BITS` -/
def GL_ALL_BARRIER_BITS : Nat := 0xFFFFFFFF

/-- A native GL call issued by the executor, one constructor per GL entry
point used in `CommandBufferGL.cpp` (float arguments are carried as their
raw 32-bit words; a buffer argument is `none` when the executor reads a
never-set vertex-buffer slot). -/
inductive GLCall where
  | bindFramebuffer (target fbo : Nat)
  | genFramebuffers (fbo : Nat)
  | deleteFramebuffers (fbo : Nat)
  | framebufferTexture2D (target attachment texture level : Nat)
  | drawBuffers (count : Nat)
  | clearBufferfv (buffer drawbuffer : Nat)
  | clearBufferfi (buffer drawbuffer : Nat)
  | clearBufferiv (buffer drawbuffer : Nat)
  | blendColor (r g b a : Nat)
  | viewport (width height : Nat)
  | bindBuffer (target : Nat) (buffer : Option Nat)
  | copyBufferSubData (readOffset writeOffset size : Nat)
  | activeTexture (unit : Nat)
  | bindTexture (target handle : Nat)
  | pixelStorei (pname param : Nat)
  | texSubImage2D (target level x y width height pointer : Nat)
  | readPixels (x y width height pointer : Nat)
  | dispatchCompute (x y z : Nat)
  | memoryBarrier (barriers : Nat)
  | drawArraysInstancedBaseInstance (mode firstVertex vertexCount instanceCount
      firstInstance : Nat)
  | drawArraysInstanced (mode firstVertex vertexCount instanceCount : Nat)
  | drawElementsInstancedBaseInstance (mode indexCount formatType pointer instanceCount
      firstInstance : Nat)
  | drawElementsInstanced (mode indexCount formatType pointer instanceCount : Nat)
  | uniform1i (location : Int) (value : Nat)
  | uniform1ui (location : Int) (value : Nat)
  | uniform1f (location : Int) (value : Nat)
  | bindSampler (unit sampler : Nat)
  | bindBufferRange (target index buffer offset size : Nat)
  | vertexAttribPointer (location size formatType stride pointer : Nat)
  | useProgram (program : Nat)
  | stencilReference (reference : Nat)
deriving DecidableEq, Repr

/-- Modelled from the spec: `kMaxPushConstants`, a fixed per-stage constant
capacity from `common/Constants.h`, which is not among the sources ("arena-
style fixed arrays indexed by small stage/slot ids with asserted maximum
counts"). -/
def kMaxPushConstants : Nat := 32

/-- Modelled from the spec: `kMaxVertexInputs`, the fixed vertex-input slot
capacity from `common/Constants.h`, which is not among the sources. -/
def kMaxVertexInputs : Nat := 16

/-- Modelled from the spec: `kMaxVertexAttributes`, the fixed vertex
attribute-location capacity from `common/Constants.h`, which is not among the
sources. -/
def kMaxVertexAttributes : Nat := 16

/-- Modelled from the spec: `kMaxColorAttachments`, the fixed color
attachment capacity from `common/Constants.h`, which is not among the
sources. -/
def kMaxColorAttachments : Nat := 4

/-- `IterateBitSet` over a bitset of the given width: the indices of the set
bits, in increasing order. -/
def bitsOf (width mask : Nat) : List Nat :=
  List.filter (fun i => Nat.testBit mask i) (List.range width)

/-- The shader stages of `nxt::ShaderStageBit`. -/
inductive Stage where
  | vertex
  | fragment
  | compute
deriving DecidableEq, Repr

/-- `IterateStages(kAllStages)`: every stage, in enumeration order. -/
def kAllStages : List Stage := [Stage.vertex, Stage.fragment, Stage.compute]

/-- `PushConstantType` (how a push constant word is handed to `glUniform1*`). -/
inductive PushConstantType where
  | int
  | uint
  | float
deriving DecidableEq, Repr

/-- The per-pipeline data the OpenGL executor consults: the GL program, the
per-stage push-constant mask and types (`PipelineBase::GetPushConstants`),
and the per-stage GL uniform locations (`PipelineGL::GetGLPushConstants`).
The pipeline classes are not among the sources; fields mirror the accessors
`CommandBufferGL.cpp` calls on them. -/
structure PipelineInfo where
  program : Nat
  pcMask : Stage → Nat
  pcTypes : Stage → Nat → PushConstantType
  glPushConstantLocations : Stage → Nat → Int

/-- The mutable state of `PushConstantTracker`: current values and dirty bits
per stage. -/
structure PushConstantState where
  values : Stage → Nat → Nat
  dirtyBits : Stage → Nat

/-- `PushConstantTracker::OnBeginPass` (lines 65-71): zero all values, leave
dirty bits alone. -/
def pcOnBeginPass (st : PushConstantState) : PushConstantState :=
  { st with values := fun _ _ => 0 }

/-- `PushConstantTracker::OnSetPushConstants` (lines 73-84): for every stage
in the stage mask, copy `count` words at `offset` and mark that range dirty. -/
def pcOnSetPushConstants (stages : Stage → Bool) (count offset : Nat)
    (data : Nat → Nat) (st : PushConstantState) : PushConstantState :=
  { st with
    values := fun s i =>
      if stages s ∧ offset ≤ i ∧ i < offset + count then data (i - offset)
      else st.values s i
    dirtyBits := fun s =>
      if stages s then st.dirtyBits s ||| (((1 <<< count) - 1) <<< offset)
      else st.dirtyBits s }

/-- `PushConstantTracker::OnSetPipeline` (lines 86-90): the dirty bits of
every stage are overwritten with the new pipeline's push-constant mask. -/
def pcOnSetPipeline (pipeline : PipelineInfo) (st : PushConstantState) :
    PushConstantState :=
  { st with dirtyBits := fun s => pipeline.pcMask s }

/-- The uniform writes performed by `PushConstantTracker::Apply` (lines
92-118): per stage, one write per bit of `dirtyBits & pushConstants.mask`
(in increasing slot order), carrying the tracked value. -/
def pcApplyWrites (pipeline : PipelineInfo) (st : PushConstantState) :
    List (Stage × Nat × Nat) :=
  List.flatMap kAllStages
    (fun s =>
      List.map (fun constant => (s, constant, st.values s constant))
        (bitsOf kMaxPushConstants (st.dirtyBits s &&& pipeline.pcMask s)))

/-- The `glUniform1{i,ui,f}` call a single write of
`PushConstantTracker::Apply` turns into, using the pipeline's declared type
and GL location for the slot. -/
def pcWriteCall (pipeline : PipelineInfo) (w : Stage × Nat × Nat) : GLCall :=
  match pipeline.pcTypes w.1 w.2.1 with
  | PushConstantType.int => GLCall.uniform1i (pipeline.glPushConstantLocations w.1 w.2.1) w.2.2
  | PushConstantType.uint => GLCall.uniform1ui (pipeline.glPushConstantLocations w.1 w.2.1) w.2.2
  | PushConstantType.float => GLCall.uniform1f (pipeline.glPushConstantLocations w.1 w.2.1) w.2.2

/-- `PushConstantTracker::Apply` (lines 92-118): the emitted GL calls and the
new tracker state.  The source resets each stage's dirty bits right after
that stage's loop; since a stage's emission only reads its own dirty bits,
this equals resetting all stages at the end. -/
def pcApply (pipeline : PipelineInfo) (st : PushConstantState) :
    List GLCall × PushConstantState :=
  (List.map (pcWriteCall pipeline) (pcApplyWrites pipeline st),
   { st with dirtyBits := fun _ => 0 })

/-- `nxt::VertexFormat` (the formats `CommandBufferGL.cpp` handles). -/
inductive VertexFormat where
  | floatR32G32B32A32
  | floatR32G32B32
  | floatR32G32
  | floatR32
deriving DecidableEq, Repr

/-- Modelled from the spec: `VertexFormatNumComponents`, the per-format
component count, declared in a header that is not among the sources. -/
def VertexFormatNumComponents : VertexFormat → Nat
  | VertexFormat.floatR32G32B32A32 => 4
  | VertexFormat.floatR32G32B32 => 3
  | VertexFormat.floatR32G32 => 2
  | VertexFormat.floatR32 => 1

/-- `VertexFormatType` (CommandBufferGL.cpp, lines 45-55): every handled
format is `GL_FLOAT`. -/
def VertexFormatType : VertexFormat → Nat
  | VertexFormat.floatR32G32B32A32 => GL_FLOAT
  | VertexFormat.floatR32G32B32 => GL_FLOAT
  | VertexFormat.floatR32G32 => GL_FLOAT
  | VertexFormat.floatR32 => GL_FLOAT

/-- `nxt::IndexFormat`. -/
inductive IndexFormat where
  | uint16
  | uint32
deriving DecidableEq, Repr

/-- `IndexFormatType` (CommandBufferGL.cpp, lines 34-43). -/
def IndexFormatType : IndexFormat → Nat
  | IndexFormat.uint16 => GL_UNSIGNED_SHORT
  | IndexFormat.uint32 => GL_UNSIGNED_INT

/-- Modelled from the spec: `IndexFormatSize`, the per-format byte size,
declared in a header that is not among the sources. -/
def IndexFormatSize : IndexFormat → Nat
  | IndexFormat.uint16 => 2
  | IndexFormat.uint32 => 4

/-- One vertex attribute of an `InputState` (`GetAttribute(location)`). -/
structure VertexAttributeInfo where
  format : VertexFormat
  offset : Nat
deriving DecidableEq, Repr

/-- The input-state (vertex input layout) data the executor consults.  `id`
models the object's identity: the source compares `InputState` pointers, and
distinct objects have distinct ids.  The `InputState` classes are not among
the sources; fields mirror the accessors `CommandBufferGL.cpp` calls. -/
structure InputStateInfo where
  id : Nat
  inputsSetMask : Nat
  attributesUsingInput : Nat → Nat
  attributes : Nat → VertexAttributeInfo
  inputStride : Nat → Nat

/-- The render-pipeline data the executor consults. -/
structure RenderPipelineInfo where
  pipeline : PipelineInfo
  inputState : InputStateInfo
  glPrimitiveTopology : Nat
  indexFormat : IndexFormat

/-- The mutable state of `InputBufferTracker` (lines 198-206). -/
structure InputBufferState where
  indexBufferDirty : Bool
  indexBuffer : Option Nat
  dirtyVertexBuffers : Nat
  vertexBuffers : Nat → Option Nat
  vertexBufferOffsets : Nat → Nat
  lastInputState : Option InputStateInfo

/-- The tracker's initial state (`mVertexBuffers` entries start unset). -/
def ibInitial : InputBufferState :=
  ⟨false, none, 0, fun _ => none, fun _ => 0, none⟩

/-- `InputBufferTracker::OnBeginPass` (lines 130-134): forget the cached
input state so everything gets reapplied. -/
def ibOnBeginPass (st : InputBufferState) : InputBufferState :=
  { st with lastInputState := none }

/-- `InputBufferTracker::OnSetIndexBuffer` (lines 136-139). -/
def ibOnSetIndexBuffer (st : InputBufferState) (buffer : Nat) : InputBufferState :=
  { st with indexBufferDirty := true, indexBuffer := some buffer }

/-- `InputBufferTracker::OnSetVertexBuffers` (lines 141-154): record
buffer+offset for `count` slots starting at `startSlot` and OR the
corresponding range into the dirty mask. -/
def ibOnSetVertexBuffers (st : InputBufferState) (startSlot count : Nat)
    (buffers offsets : Nat → Nat) : InputBufferState :=
  { st with
    vertexBuffers := fun slot =>
      if startSlot ≤ slot ∧ slot < startSlot + count then some (buffers (slot - startSlot))
      else st.vertexBuffers slot
    vertexBufferOffsets := fun slot =>
      if startSlot ≤ slot ∧ slot < startSlot + count then offsets (slot - startSlot)
      else st.vertexBufferOffsets slot
    dirtyVertexBuffers := st.dirtyVertexBuffers ||| (((1 <<< count) - 1) <<< startSlot) }

/-- `InputBufferTracker::OnSetPipeline` (lines 156-166): a no-op when the
pipeline's input state is the cached one; otherwise mark the index buffer
dirty, OR the new layout's live-slot mask into the vertex dirty mask, and
cache the layout. -/
def ibOnSetPipeline (st : InputBufferState) (inputState : InputStateInfo) :
    InputBufferState :=
  if Option.map InputStateInfo.id st.lastInputState = some inputState.id then st
  else
    { st with
      indexBufferDirty := true
      dirtyVertexBuffers := st.dirtyVertexBuffers ||| inputState.inputsSetMask
      lastInputState := some inputState }

/-- The vertex-buffer slots `InputBufferTracker::Apply` iterates (line 174):
the bits of `mDirtyVertexBuffers & mLastInputState->GetInputsSetMask()`.  The
source dereferences the cached input state unconditionally; `Apply` only runs
after a pipeline bind in the same subpass has set it, so an unset cache reads
as the empty mask. -/
def ibAppliedSlots (st : InputBufferState) : List Nat :=
  match st.lastInputState with
  | none => []
  | some is => bitsOf kMaxVertexInputs (st.dirtyVertexBuffers &&& is.inputsSetMask)

/-- The GL calls `InputBufferTracker::Apply` issues for one dirty live slot
(lines 176-192): per attribute location fed by the slot, bind the slot's
buffer and set the attribute pointer. -/
def ibSlotCalls (st : InputBufferState) (is : InputStateInfo) (slot : Nat) :
    List GLCall :=
  List.flatMap (bitsOf kMaxVertexAttributes (is.attributesUsingInput slot))
    (fun location =>
      let attr := is.attributes location
      [GLCall.bindBuffer GL_ARRAY_BUFFER (st.vertexBuffers slot),
       GLCall.vertexAttribPointer location (VertexFormatNumComponents attr.format)
         (VertexFormatType attr.format) (is.inputStride slot)
         (st.vertexBufferOffsets slot + attr.offset)])

/-- The GL calls of `InputBufferTracker::Apply` (lines 168-196): the index
buffer is (re)bound when dirty and set, then every dirty live vertex slot is
(re)bound. -/
def ibApplyCalls (st : InputBufferState) : List GLCall :=
  List.append
    (if st.indexBufferDirty && Option.isSome st.indexBuffer then
      [GLCall.bindBuffer GL_ELEMENT_ARRAY_BUFFER st.indexBuffer]
    else [])
    (match st.lastInputState with
     | none => []
     | some is =>
        List.flatMap (bitsOf kMaxVertexInputs (st.dirtyVertexBuffers &&& is.inputsSetMask))
          (ibSlotCalls st is))

/-- The state after `InputBufferTracker::Apply`: the index dirty flag is
cleared only when the bind happened; the vertex dirty mask is always reset. -/
def ibApplyState (st : InputBufferState) : InputBufferState :=
  { st with
    indexBufferDirty := st.indexBufferDirty && Option.isNone st.indexBuffer
    dirtyVertexBuffers := 0 }

/-- `InputBufferTracker::Apply`: emitted calls and new state. -/
def ibApply (st : InputBufferState) : List GLCall × InputBufferState :=
  (ibApplyCalls st, ibApplyState st)

lemma bitsOf_mem (width mask c : Nat) :
    c ∈ bitsOf width mask ↔ c < width ∧ Nat.testBit mask c = true := by
  simp [bitsOf, List.mem_filter, List.mem_range]

lemma bitsOf_nodup (width mask : Nat) : (bitsOf width mask).Nodup :=
  List.Nodup.filter _ (List.nodup_range width)

lemma bitsOf_count (width mask c : Nat) :
    (bitsOf width mask).count c =
      if c < width ∧ Nat.testBit mask c = true then 1 else 0 := by
  by_cases h : c < width ∧ Nat.testBit mask c = true
  · rw [if_pos h]
    exact List.count_eq_one_of_mem (bitsOf_nodup width mask) ((bitsOf_mem width mask c).mpr h)
  · rw [if_neg h]
    exact List.count_eq_zero.mpr fun hc => h ((bitsOf_mem width mask c).mp hc)

/-- The writes `PushConstantTracker::Apply` performs for one stage. -/
def pcStageWrites (pipeline : PipelineInfo) (st : PushConstantState) (s : Stage) :
    List (Stage × Nat × Nat) :=
  List.map (fun constant => (s, constant, st.values s constant))
    (bitsOf kMaxPushConstants (st.dirtyBits s &&& pipeline.pcMask s))

lemma pcApplyWrites_eq_stageWrites (pipeline : PipelineInfo) (st : PushConstantState) :
    pcApplyWrites pipeline st =
      List.append (pcStageWrites pipeline st Stage.vertex)
        (List.append (pcStageWrites pipeline st Stage.fragment)
          (pcStageWrites pipeline st Stage.compute)) := by
  simp [pcApplyWrites, pcStageWrites, kAllStages, List.flatMap]

lemma pcStageWrites_mem (pipeline : PipelineInfo) (st : PushConstantState)
    (s' s : Stage) (c v : Nat) :
    (s, c, v) ∈ pcStageWrites pipeline st s' ↔
      s' = s ∧ c ∈ bitsOf kMaxPushConstants (st.dirtyBits s &&& pipeline.pcMask s) ∧
        v = st.values s c := by
  constructor
  · intro h
    rcases List.mem_map.mp h with ⟨k, hk, hEq⟩
    rcases hEq
    exact ⟨rfl, hk, rfl⟩
  · rintro ⟨rfl, hc, rfl⟩
    exact List.mem_map.mpr ⟨c, hc, rfl⟩

lemma pcStageWrites_countP (pipeline : PipelineInfo) (st : PushConstantState)
    (s' s : Stage) (c : Nat) :
    List.countP (fun w => decide (w.1 = s) && decide (w.2.1 = c))
        (pcStageWrites pipeline st s') =
      if s' = s then
        if c < kMaxPushConstants ∧
            Nat.testBit (st.dirtyBits s &&& pipeline.pcMask s) c = true then 1 else 0
      else 0 := by
  rw [pcStageWrites, List.countP_map]
  by_cases hs : s' = s
  · subst hs
    rw [if_pos rfl, ← bitsOf_count kMaxPushConstants (st.dirtyBits s' &&& pipeline.pcMask s') c]
    rw [List.count]
    congr 1
    funext k
    simp [Function.comp, Nat.beq_eq_true_eq]
    rfl
  · rw [if_neg hs]
    rw [List.countP_eq_zero]
    intro k _
    simp [Function.comp, hs]

/-- A pipeline that consumes no push constants (used as a concrete input). -/
def noPCPipeline : PipelineInfo :=
  ⟨0, fun _ => 0, fun _ _ => PushConstantType.int, fun _ _ => 0⟩

/-- A tracker state with slot 0 dirty in every stage (used as a concrete
input). -/
def dirtySlot0State : PushConstantState :=
  ⟨fun _ _ => 0, fun _ => 1⟩

/-- The input layout of the spec's example: live slots `{0, 2, 4}`
(`inputsSetMask = 0b10101`), one attribute per slot. -/
def exampleLayout : InputStateInfo :=
  ⟨1, 0b10101, fun slot => 1 <<< slot, fun _ => ⟨VertexFormat.floatR32, 0⟩, fun _ => 0⟩

/-- The tracker state of the spec's example just before the pipeline switch:
from a fresh tracker, vertex buffers bound at slots `[2, 5)`. -/
def preSwitchIBState : InputBufferState :=
  ibOnSetVertexBuffers ibInitial 2 3 (fun i => 10 + i) (fun _ => 0)

/-- The tracker state of the spec's example: after binding vertex buffers at
slots `[2, 5)`, switch to a pipeline with `exampleLayout`. -/
def exampleIBState : InputBufferState :=
  ibOnSetPipeline preSwitchIBState exampleLayout

/-- A pipeline consuming push-constant slot 0 in every stage (used as a
concrete input). -/
def onePCPipeline : PipelineInfo :=
  ⟨0, fun _ => 1, fun _ _ => PushConstantType.uint, fun _ _ => 3⟩

/-- A tracker state whose every slot holds value 42 and whose slot 0 is dirty
in every stage (used as a concrete input). -/
def value42State : PushConstantState :=
  ⟨fun _ _ => 42, fun _ => 1⟩

/-- `nxt::LoadOp`. -/
inductive LoadOp where
  | clear
  | load
deriving DecidableEq, Repr

/-- The texture formats the executor's asserts allow as attachments, plus the
ones mentioned by the copy paths. -/
inductive TextureFormat where
  | r8g8b8a8Unorm
  | d32FloatS8Uint
deriving DecidableEq, Repr

/-- Modelled from the spec: `TextureFormatHasDepth`, a helper declared in a
header that is not among the sources. -/
def TextureFormatHasDepth : TextureFormat → Bool
  | TextureFormat.d32FloatS8Uint => true
  | _ => false

/-- Modelled from the spec: `TextureFormatHasStencil`, a helper declared in a
header that is not among the sources. -/
def TextureFormatHasStencil : TextureFormat → Bool
  | TextureFormat.d32FloatS8Uint => true
  | _ => false

/-- Modelled from the spec: `TextureFormatPixelSize`, the per-texel byte size
("dividing byte pitch by the per-texel size of the resource's format"). -/
def TextureFormatPixelSize : TextureFormat → Nat
  | TextureFormat.r8g8b8a8Unorm => 4
  | TextureFormat.d32FloatS8Uint => 8

/-- One attachment of a render pass (`RenderPass::GetAttachmentInfo`).  The
`RenderPass` class is not among the sources; fields mirror the accessors
`CommandBufferGL.cpp` reads. -/
structure AttachmentInfo where
  format : TextureFormat
  colorLoadOp : LoadOp
  depthLoadOp : LoadOp
  stencilLoadOp : LoadOp
  firstSubpass : Nat
deriving DecidableEq, Repr

/-- One subpass of a render pass (`RenderPass::GetSubpassInfo`): the live
color-attachment locations, the attachment slot each location references, and
the optional depth/stencil attachment slot. -/
structure SubpassInfo where
  colorAttachmentsSet : Nat
  colorAttachments : Nat → Nat
  depthStencilAttachmentSet : Bool
  depthStencilAttachment : Nat

/-- A render pass as the executor reads it. -/
structure RenderPassInfo where
  subpassCount : Nat
  subpasses : Nat → SubpassInfo
  attachments : Nat → AttachmentInfo

/-- A framebuffer as the executor reads it: per attachment slot, the GL
texture handle of its texture view. -/
structure FramebufferInfo where
  width : Nat
  height : Nat
  textureHandles : Nat → Nat

/-- The GL attachment point for a depth/stencil texture format
(CommandBufferGL.cpp, lines 306-317). -/
def dsAttachmentPoint (format : TextureFormat) : Nat :=
  if TextureFormatHasDepth format then
    if TextureFormatHasStencil format then GL_DEPTH_STENCIL_ATTACHMENT
    else GL_DEPTH_ATTACHMENT
  else GL_STENCIL_ATTACHMENT

/-- The color-attachment locations cleared while beginning subpass `i`
(CommandBufferGL.cpp, lines 329-342): live locations whose attachment has
`firstSubpass = i` and a `Clear` color load op. -/
def subpassColorClearLocs (rp : RenderPassInfo) (i : Nat) : List Nat :=
  List.filter
    (fun location =>
      let slot := (rp.subpasses i).colorAttachments location
      decide ((rp.attachments slot).firstSubpass = i) &&
        decide ((rp.attachments slot).colorLoadOp = LoadOp.clear))
    (bitsOf kMaxColorAttachments (rp.subpasses i).colorAttachmentsSet)

/-- The `doDepthClear` local of the depth/stencil load-op block
(CommandBufferGL.cpp, line 354): the subpass's depth/stencil attachment has a
depth-capable format and a `Clear` depth load op. -/
def dsDoDepthClear (rp : RenderPassInfo) (i : Nat) : Bool :=
  TextureFormatHasDepth
      (rp.attachments (rp.subpasses i).depthStencilAttachment).format &&
    decide ((rp.attachments (rp.subpasses i).depthStencilAttachment).depthLoadOp =
      LoadOp.clear)

/-- The `doStencilClear` local (CommandBufferGL.cpp, line 356). -/
def dsDoStencilClear (rp : RenderPassInfo) (i : Nat) : Bool :=
  TextureFormatHasStencil
      (rp.attachments (rp.subpasses i).depthStencilAttachment).format &&
    decide ((rp.attachments (rp.subpasses i).depthStencilAttachment).stencilLoadOp =
      LoadOp.clear)

/-- The depth/stencil clear call issued while beginning subpass `i`
(CommandBufferGL.cpp, lines 344-368), if any: only when the subpass has a
depth/stencil attachment whose `firstSubpass` is `i`, choosing the GL clear
entry point from which of depth/stencil are format-supported and marked
`Clear`. -/
def subpassDSClearCall (rp : RenderPassInfo) (i : Nat) : Option GLCall :=
  if (rp.subpasses i).depthStencilAttachmentSet then
    if (rp.attachments (rp.subpasses i).depthStencilAttachment).firstSubpass = i then
      if dsDoDepthClear rp i && dsDoStencilClear rp i then
        some (GLCall.clearBufferfi GL_DEPTH_STENCIL 0)
      else if dsDoDepthClear rp i then some (GLCall.clearBufferfv GL_DEPTH 0)
      else if dsDoStencilClear rp i then some (GLCall.clearBufferiv GL_STENCIL 0)
      else none
    else none
  else none

/-- The GL calls of the `BeginRenderSubpass` case (CommandBufferGL.cpp, lines
251-373): unbind the read framebuffer, create and bind a fresh draw
framebuffer `fbo`, attach the subpass's color and depth/stencil textures, set
the draw buffers, run the load-op clears, then reset blend color and set the
viewport. -/
def beginSubpassCalls (rp : RenderPassInfo) (fb : FramebufferInfo) (i fbo : Nat) :
    List GLCall :=
  let sub := rp.subpasses i
  let liveLocs := bitsOf kMaxColorAttachments sub.colorAttachmentsSet
  [GLCall.bindFramebuffer GL_READ_FRAMEBUFFER 0,
   GLCall.genFramebuffers fbo,
   GLCall.bindFramebuffer GL_DRAW_FRAMEBUFFER fbo] ++
  List.map
    (fun location =>
      GLCall.framebufferTexture2D GL_DRAW_FRAMEBUFFER (GL_COLOR_ATTACHMENT0 + location)
        (fb.textureHandles (sub.colorAttachments location)) 0)
    liveLocs ++
  [GLCall.drawBuffers (List.foldl (fun _ location => location + 1) 0 liveLocs)] ++
  (if sub.depthStencilAttachmentSet then
    [GLCall.framebufferTexture2D GL_DRAW_FRAMEBUFFER
      (dsAttachmentPoint (rp.attachments sub.depthStencilAttachment).format)
      (fb.textureHandles sub.depthStencilAttachment) 0]
  else []) ++
  List.map (fun location => GLCall.clearBufferfv GL_COLOR location)
    (subpassColorClearLocs rp i) ++
  (subpassDSClearCall rp i).toList ++
  [GLCall.blendColor 0 0 0 0, GLCall.viewport fb.width fb.height]

/-- One binding of a bind group, with the native index/units the current
pipeline layout assigns it (the layout classes are not among the sources; the
emission per binding type mirrors CommandBufferGL.cpp, lines 556-604). -/
inductive Binding where
  | uniformBuffer (uboIndex buffer offset size : Nat)
  | sampler (handle : Nat) (units : List Nat)
  | sampledTexture (handle target : Nat) (units : List Nat)
  | storageBuffer (ssboIndex buffer offset size : Nat)
deriving DecidableEq, Repr

/-- The GL calls `SetBindGroup` issues for one binding. -/
def bindingCalls : Binding → List GLCall
  | Binding.uniformBuffer uboIndex buffer offset size =>
      [GLCall.bindBufferRange GL_UNIFORM_BUFFER uboIndex buffer offset size]
  | Binding.sampler handle units =>
      List.map (fun unit => GLCall.bindSampler unit handle) units
  | Binding.sampledTexture handle target units =>
      List.flatMap units
        (fun unit => [GLCall.activeTexture (GL_TEXTURE0 + unit),
                      GLCall.bindTexture target handle])
  | Binding.storageBuffer ssboIndex buffer offset size =>
      [GLCall.bindBufferRange GL_SHADER_STORAGE_BUFFER ssboIndex buffer offset size]

/-- One record of the command stream (`backend::Command`), restricted to the
fields `CommandBufferGL.cpp` reads. -/
inductive Cmd where
  | beginComputePass
  | beginRenderPass (renderPass : RenderPassInfo) (framebuffer : FramebufferInfo)
  | beginRenderSubpass
  | copyBufferToBuffer (srcBuffer srcOffset dstBuffer dstOffset size : Nat)
  | copyBufferToTexture (srcBuffer srcOffset rowPitch dstTexture dstTarget : Nat)
      (dstFormat : TextureFormat) (level x y width height : Nat)
  | copyTextureToBuffer (srcTexture : Nat) (srcFormat : TextureFormat)
      (level x y width height dstBuffer dstOffset rowPitch : Nat)
  | dispatch (x y z : Nat)
  | drawArrays (vertexCount instanceCount firstVertex firstInstance : Nat)
  | drawElements (indexCount instanceCount firstIndex firstInstance : Nat)
  | endComputePass
  | endRenderPass
  | endRenderSubpass
  | setComputePipeline (pipeline : PipelineInfo)
  | setRenderPipeline (pipeline : RenderPipelineInfo)
  | setPushConstants (stages : Stage → Bool) (count offset : Nat) (data : Nat → Nat)
  | setStencilReference (reference : Nat)
  | setBlendColor (r g b a : Nat)
  | setBindGroup (bindings : List Binding)
  | setIndexBuffer (buffer offset : Nat)
  | setVertexBuffers (startSlot count : Nat) (buffers offsets : Nat → Nat)
  | transitionBufferUsage
  | transitionTextureUsage

/-- The mutable local state of `CommandBuffer::Execute` (lines 219-235). -/
structure ExecState where
  pushConstants : PushConstantState
  inputBuffers : InputBufferState
  lastPipeline : Option PipelineInfo
  lastRenderPipeline : Option RenderPipelineInfo
  indexBufferOffset : Nat
  currentRenderPass : Option RenderPassInfo
  currentFramebuffer : Option FramebufferInfo
  currentSubpass : Nat
  currentFBO : Nat
  nextFBO : Nat

/-- A pipeline with no push constants, standing in for the (undefined in the
source) dereference of `lastPipeline` before any pipeline was bound. -/
def emptyPipeline : PipelineInfo :=
  ⟨0, fun _ => 0, fun _ _ => PushConstantType.int, fun _ _ => 0⟩

/-- An input state with no live slots. -/
def emptyInputState : InputStateInfo :=
  ⟨0, 0, fun _ => 0, fun _ => ⟨VertexFormat.floatR32, 0⟩, fun _ => 0⟩

/-- A render pipeline standing in for the (undefined in the source)
dereference of `lastRenderPipeline` before any render pipeline was bound. -/
def emptyRenderPipeline : RenderPipelineInfo :=
  ⟨emptyPipeline, emptyInputState, 0, IndexFormat.uint16⟩

/-- A render pass with no subpasses. -/
def emptyRenderPassInfo : RenderPassInfo :=
  ⟨0, fun _ => ⟨0, fun _ => 0, false, 0⟩,
   fun _ => ⟨TextureFormat.r8g8b8a8Unorm, LoadOp.load, LoadOp.load, LoadOp.load, 0⟩⟩

/-- A framebuffer with no attachments. -/
def emptyFramebufferInfo : FramebufferInfo := ⟨0, 0, fun _ => 0⟩

/-- The state at the top of `CommandBuffer::Execute`.  Fresh GL framebuffer
names start at 1 (0 is the default framebuffer). -/
def initialExecState : ExecState :=
  ⟨⟨fun _ _ => 0, fun _ => 0⟩, ibInitial, none, none, 0, none, none, 0, 0, 1⟩

/-- One iteration of the `Execute` loop (CommandBufferGL.cpp, lines 237-633):
the state after the record and the GL calls it issues.  `lastPipeline` and
`lastRenderPipeline` are dereferenced through a default (the source assumes a
pre-validated stream that binds a pipeline before using it). -/
def execCmd (st : ExecState) : Cmd → ExecState × List GLCall
  | Cmd.beginComputePass =>
      ({ st with pushConstants := pcOnBeginPass st.pushConstants }, [])
  | Cmd.beginRenderPass renderPass framebuffer =>
      ({ st with currentRenderPass := some renderPass,
                 currentFramebuffer := some framebuffer,
                 currentSubpass := 0 }, [])
  | Cmd.beginRenderSubpass =>
      let rp := Option.getD st.currentRenderPass emptyRenderPassInfo
      let fb := Option.getD st.currentFramebuffer emptyFramebufferInfo
      ({ st with pushConstants := pcOnBeginPass st.pushConstants,
                 inputBuffers := ibOnBeginPass st.inputBuffers,
                 currentFBO := st.nextFBO,
                 nextFBO := st.nextFBO + 1 },
       beginSubpassCalls rp fb st.currentSubpass st.nextFBO)
  | Cmd.copyBufferToBuffer srcBuffer srcOffset dstBuffer dstOffset size =>
      (st,
       [GLCall.bindBuffer GL_PIXEL_PACK_BUFFER (some srcBuffer),
        GLCall.bindBuffer GL_PIXEL_UNPACK_BUFFER (some dstBuffer),
        GLCall.copyBufferSubData srcOffset dstOffset size,
        GLCall.bindBuffer GL_PIXEL_PACK_BUFFER (some 0),
        GLCall.bindBuffer GL_PIXEL_UNPACK_BUFFER (some 0)])
  | Cmd.copyBufferToTexture srcBuffer srcOffset rowPitch dstTexture dstTarget
      dstFormat level x y width height =>
      (st,
       [GLCall.bindBuffer GL_PIXEL_UNPACK_BUFFER (some srcBuffer),
        GLCall.activeTexture GL_TEXTURE0,
        GLCall.bindTexture dstTarget dstTexture,
        GLCall.pixelStorei GL_UNPACK_ROW_LENGTH (rowPitch / TextureFormatPixelSize dstFormat),
        GLCall.texSubImage2D dstTarget level x y width height srcOffset,
        GLCall.pixelStorei GL_UNPACK_ROW_LENGTH 0,
        GLCall.bindBuffer GL_PIXEL_UNPACK_BUFFER (some 0)])
  | Cmd.copyTextureToBuffer srcTexture srcFormat level x y width height
      dstBuffer dstOffset rowPitch =>
      ({ st with nextFBO := st.nextFBO + 1 },
       [GLCall.bindTexture GL_TEXTURE_2D srcTexture,
        GLCall.genFramebuffers st.nextFBO,
        GLCall.bindFramebuffer GL_READ_FRAMEBUFFER st.nextFBO,
        GLCall.framebufferTexture2D GL_READ_FRAMEBUFFER GL_COLOR_ATTACHMENT0 srcTexture level,
        GLCall.bindBuffer GL_PIXEL_PACK_BUFFER (some dstBuffer),
        GLCall.pixelStorei GL_PACK_ROW_LENGTH (rowPitch / TextureFormatPixelSize srcFormat),
        GLCall.readPixels x y width height dstOffset,
        GLCall.pixelStorei GL_PACK_ROW_LENGTH 0,
        GLCall.bindBuffer GL_PIXEL_PACK_BUFFER (some 0),
        GLCall.deleteFramebuffers st.nextFBO])
  | Cmd.dispatch x y z =>
      let pipeline := Option.getD st.lastPipeline emptyPipeline
      let applied := pcApply pipeline st.pushConstants
      ({ st with pushConstants := applied.2 },
       applied.1 ++ [GLCall.dispatchCompute x y z, GLCall.memoryBarrier GL_ALL_BARRIER_BITS])
  | Cmd.drawArrays vertexCount instanceCount firstVertex firstInstance =>
      let pipeline := Option.getD st.lastPipeline emptyPipeline
      let renderPipeline := Option.getD st.lastRenderPipeline emptyRenderPipeline
      let appliedPC := pcApply pipeline st.pushConstants
      let appliedIB := ibApply st.inputBuffers
      ({ st with pushConstants := appliedPC.2, inputBuffers := appliedIB.2 },
       appliedPC.1 ++ appliedIB.1 ++
       (if 0 < firstInstance then
          [GLCall.drawArraysInstancedBaseInstance renderPipeline.glPrimitiveTopology
            firstVertex vertexCount instanceCount firstInstance]
        else
          [GLCall.drawArraysInstanced renderPipeline.glPrimitiveTopology
            firstVertex vertexCount instanceCount]))
  | Cmd.drawElements indexCount instanceCount firstIndex firstInstance =>
      let pipeline := Option.getD st.lastPipeline emptyPipeline
      let renderPipeline := Option.getD st.lastRenderPipeline emptyRenderPipeline
      let appliedPC := pcApply pipeline st.pushConstants
      let appliedIB := ibApply st.inputBuffers
      let formatSize := IndexFormatSize renderPipeline.indexFormat
      let formatType := IndexFormatType renderPipeline.indexFormat
      ({ st with pushConstants := appliedPC.2, inputBuffers := appliedIB.2 },
       appliedPC.1 ++ appliedIB.1 ++
       (if 0 < firstInstance then
          [GLCall.drawElementsInstancedBaseInstance renderPipeline.glPrimitiveTopology
            indexCount formatType (firstIndex * formatSize + st.indexBufferOffset)
            instanceCount firstInstance]
        else
          [GLCall.drawElementsInstanced renderPipeline.glPrimitiveTopology
            indexCount formatType (firstIndex * formatSize + st.indexBufferOffset)
            instanceCount]))
  | Cmd.endComputePass => (st, [])
  | Cmd.endRenderPass => (st, [])
  | Cmd.endRenderSubpass =>
      ({ st with currentFBO := 0, currentSubpass := st.currentSubpass + 1 },
       [GLCall.deleteFramebuffers st.currentFBO])
  | Cmd.setComputePipeline pipeline =>
      ({ st with lastPipeline := some pipeline,
                 pushConstants := pcOnSetPipeline pipeline st.pushConstants },
       [GLCall.useProgram pipeline.program])
  | Cmd.setRenderPipeline pipeline =>
      ({ st with lastRenderPipeline := some pipeline,
                 lastPipeline := some pipeline.pipeline,
                 pushConstants := pcOnSetPipeline pipeline.pipeline st.pushConstants,
                 inputBuffers := ibOnSetPipeline st.inputBuffers pipeline.inputState },
       [GLCall.useProgram pipeline.pipeline.program])
  | Cmd.setPushConstants stages count offset data =>
      ({ st with pushConstants :=
          pcOnSetPushConstants stages count offset data st.pushConstants }, [])
  | Cmd.setStencilReference reference => (st, [GLCall.stencilReference reference])
  | Cmd.setBlendColor r g b a => (st, [GLCall.blendColor r g b a])
  | Cmd.setBindGroup bindings => (st, List.flatMap bindings bindingCalls)
  | Cmd.setIndexBuffer buffer offset =>
      ({ st with indexBufferOffset := offset,
                 inputBuffers := ibOnSetIndexBuffer st.inputBuffers buffer }, [])
  | Cmd.setVertexBuffers startSlot count buffers offsets =>
      ({ st with inputBuffers :=
          ibOnSetVertexBuffers st.inputBuffers startSlot count buffers offsets }, [])
  | Cmd.transitionBufferUsage => (st, [])
  | Cmd.transitionTextureUsage => (st, [])

/-- Run the `Execute` loop over a command list. -/
def execCmds (st : ExecState) : List Cmd → ExecState × List GLCall
  | [] => (st, [])
  | c :: cs =>
      let head := execCmd st c
      let rest := execCmds head.1 cs
      (rest.1, List.append head.2 rest.2)

/-- `CommandBuffer::Execute`: the full GL call trace of a command stream,
ending with the `glBindSampler(0, 0)` cleanup (line 638). -/
def Execute (cmds : List Cmd) : List GLCall :=
  List.append (execCmds initialExecState cmds).2 [GLCall.bindSampler 0 0]

/-- Is this call a `glDispatchCompute`? -/
def isDispatch : GLCall → Bool
  | GLCall.dispatchCompute _ _ _ => true
  | _ => false

/-- Every `glDispatchCompute` in the trace is immediately followed by a
`glMemoryBarrier(GL_ALL_BARRIER_BITS)`. -/
def fencedTrace : List GLCall → Bool
  | [] => true
  | GLCall.dispatchCompute _ _ _ :: rest =>
      match rest with
      | GLCall.memoryBarrier bits :: _ =>
          decide (bits = GL_ALL_BARRIER_BITS) && fencedTrace rest
      | _ => false
  | _ :: rest => fencedTrace rest

/-- The trace contains no `glDispatchCompute`. -/
def noDispatch (l : List GLCall) : Bool :=
  List.all l (fun call => !isDispatch call)

/-- The trace's last call (if any) is not a `glDispatchCompute`. -/
def lastNotDispatch : List GLCall → Bool
  | [] => true
  | [call] => !isDispatch call
  | _ :: rest => lastNotDispatch rest

/-- The number of load-op color clears of attachment `slot` while beginning
subpass `i`. -/
def colorClearsAt (rp : RenderPassInfo) (i slot : Nat) : Nat :=
  (List.filter (fun location => decide ((rp.subpasses i).colorAttachments location = slot))
    (subpassColorClearLocs rp i)).length

/-- The number of load-op color clears of attachment `slot` over the whole
pass (subpasses `0, …, subpassCount - 1`, as executed by the
`BeginRenderSubpass`/`EndRenderSubpass` pairing). -/
def colorClearCount (rp : RenderPassInfo) (slot : Nat) : Nat :=
  (List.map (fun i => colorClearsAt rp i slot) (List.range rp.subpassCount)).sum

/-- The number of load-op depth/stencil clears of attachment `slot` while
beginning subpass `i`. -/
def dsClearsAt (rp : RenderPassInfo) (i slot : Nat) : Nat :=
  if (rp.subpasses i).depthStencilAttachmentSet = true ∧
      (rp.subpasses i).depthStencilAttachment = slot ∧
      (subpassDSClearCall rp i).isSome = true then 1 else 0

/-- The number of load-op depth/stencil clears of attachment `slot` over the
whole pass. -/
def dsClearCount (rp : RenderPassInfo) (slot : Nat) : Nat :=
  (List.map (fun i => dsClearsAt rp i slot) (List.range rp.subpassCount)).sum

/-- A two-subpass pass: both subpasses draw to color attachment 0 (location
0) and depth/stencil attachment 1; attachment 0 clears color, attachment 1
clears depth and stencil, both first used in subpass 0. -/
def exampleRenderPass : RenderPassInfo :=
  ⟨2, fun _ => ⟨1, fun _ => 0, true, 1⟩,
   fun slot =>
     if slot = 0 then
       ⟨TextureFormat.r8g8b8a8Unorm, LoadOp.clear, LoadOp.load, LoadOp.load, 0⟩
     else ⟨TextureFormat.d32FloatS8Uint, LoadOp.load, LoadOp.clear, LoadOp.clear, 0⟩⟩

lemma noDispatch_iff (l : List GLCall) :
    noDispatch l = true ↔ ∀ call ∈ l, isDispatch call = false := by
  simp [noDispatch, List.all_eq_true]

lemma fencedTrace_cons_of_not_dispatch (c : GLCall) (l : List GLCall)
    (h : isDispatch c = false) : fencedTrace (c :: l) = fencedTrace l := by
  cases c <;> first
    | rfl
    | exact absurd h (by simp [isDispatch])

lemma lastNotDispatch_cons_of_ne_nil (c : GLCall) (l : List GLCall) (h : l ≠ []) :
    lastNotDispatch (c :: l) = lastNotDispatch l := by
  cases l with
  | nil => exact absurd rfl h
  | cons d rest => rfl

lemma fencedTrace_tail (c : GLCall) (rest : List GLCall)
    (h : fencedTrace (c :: rest) = true) : fencedTrace rest = true := by
  cases c <;> try exact h
  case dispatchCompute x y z =>
    cases rest with
    | nil => rfl
    | cons d tail =>
      cases d <;> try exact Bool.noConfusion h
      case memoryBarrier bits =>
        have h' : (decide (bits = GL_ALL_BARRIER_BITS) &&
            fencedTrace (GLCall.memoryBarrier bits :: tail)) = true := h
        rw [Bool.and_eq_true] at h'
        exact h'.2

lemma fencedTrace_dispatch_head (x y z : Nat) (rest : List GLCall)
    (h : fencedTrace (GLCall.dispatchCompute x y z :: rest) = true) :
    rest.get? 0 = some (GLCall.memoryBarrier GL_ALL_BARRIER_BITS) := by
  cases rest with
  | nil => exact Bool.noConfusion h
  | cons d tail =>
    cases d <;> try exact Bool.noConfusion h
    case memoryBarrier bits =>
      have h' : (decide (bits = GL_ALL_BARRIER_BITS) &&
          fencedTrace (GLCall.memoryBarrier bits :: tail)) = true := h
      rw [Bool.and_eq_true] at h'
      have hb : bits = GL_ALL_BARRIER_BITS := of_decide_eq_true h'.1
      rw [hb]
      rfl

lemma noDispatch_fencedTrace (l : List GLCall) (h : noDispatch l = true) :
    fencedTrace l = true := by
  induction l with
  | nil => rfl
  | cons c rest ih =>
    rw [noDispatch, List.all_cons, Bool.and_eq_true] at h
    rw [fencedTrace_cons_of_not_dispatch c rest (by simpa using h.1)]
    exact ih h.2

lemma noDispatch_lastNotDispatch (l : List GLCall) (h : noDispatch l = true) :
    lastNotDispatch l = true := by
  induction l with
  | nil => rfl
  | cons c rest ih =>
    rw [noDispatch, List.all_cons, Bool.and_eq_true] at h
    cases rest with
    | nil => simpa [lastNotDispatch] using h.1
    | cons d tail =>
      rw [lastNotDispatch_cons_of_ne_nil c (d :: tail) (by simp)]
      exact ih h.2

lemma lastNotDispatch_append (a b : List GLCall) :
    lastNotDispatch (a ++ b) =
      if b = [] then lastNotDispatch a else lastNotDispatch b := by
  induction a with
  | nil =>
    cases b with
    | nil => rfl
    | cons d tail => rfl
  | cons c a' ih =>
    by_cases hb : b = []
    · subst hb
      rw [if_pos rfl]
      cases a' with
      | nil => rfl
      | cons d tail =>
        rw [List.cons_append,
          lastNotDispatch_cons_of_ne_nil c (d :: tail ++ []) (by simp),
          lastNotDispatch_cons_of_ne_nil c (d :: tail) (by simp)]
        simp only [ih, if_pos rfl, List.append_nil]
    · rw [if_neg hb]
      have hne : a' ++ b ≠ [] := by
        cases a' <;> simp [hb]
      rw [List.cons_append, lastNotDispatch_cons_of_ne_nil c (a' ++ b) hne]
      rw [ih, if_neg hb]

lemma fencedTrace_append (a b : List GLCall) (ha : fencedTrace a = true)
    (hb : fencedTrace b = true) (hlast : lastNotDispatch a = true) :
    fencedTrace (a ++ b) = true := by
  induction a with
  | nil => simpa using hb
  | cons c a' ih =>
    rw [List.cons_append]
    by_cases hc : isDispatch c = true
    case neg =>
      rw [Bool.not_eq_true] at hc
      rw [fencedTrace_cons_of_not_dispatch c _ hc]
      rw [fencedTrace_cons_of_not_dispatch c _ hc] at ha
      cases a' with
      | nil => simpa using hb
      | cons d tail =>
        apply ih ha
        rw [← lastNotDispatch_cons_of_ne_nil c (d :: tail) (by simp)]
        exact hlast
    case pos =>
      cases c <;> try exact Bool.noConfusion hc
      case dispatchCompute x y z =>
        cases a' with
        | nil => exact absurd hlast (by simp [lastNotDispatch, isDispatch])
        | cons d tail =>
          cases d <;> try exact Bool.noConfusion ha
          case memoryBarrier bits =>
            have ha' : (decide (bits = GL_ALL_BARRIER_BITS) &&
                fencedTrace (GLCall.memoryBarrier bits :: tail)) = true := ha
            rw [Bool.and_eq_true] at ha'
            have hrec : fencedTrace ((GLCall.memoryBarrier bits :: tail) ++ b)
                = true := by
              apply ih ha'.2
              rw [← lastNotDispatch_cons_of_ne_nil (GLCall.dispatchCompute x y z) _ (by simp)]
              exact hlast
            show (decide (bits = GL_ALL_BARRIER_BITS) &&
              fencedTrace (GLCall.memoryBarrier bits :: (tail ++ b))) = true
            rw [Bool.and_eq_true]
            exact ⟨ha'.1, hrec⟩

lemma fencedTrace_get (l : List GLCall) (h : fencedTrace l = true) (i x y z : Nat)
    (hi : l.get? i = some (GLCall.dispatchCompute x y z)) :
    l.get? (i + 1) = some (GLCall.memoryBarrier GL_ALL_BARRIER_BITS) := by
  induction l generalizing i with
  | nil => cases hi
  | cons c rest ih =>
    cases i with
    | zero =>
      have hc : c = GLCall.dispatchCompute x y z := by simpa using hi
      subst hc
      simpa using fencedTrace_dispatch_head x y z rest h
    | succ j =>
      have hrest : fencedTrace rest = true := fencedTrace_tail c rest h
      simpa using ih hrest j (by simpa using hi)

lemma noDispatch_pcApplyCalls (pipeline : PipelineInfo) (st : PushConstantState) :
    noDispatch (pcApply pipeline st).1 = true := by
  rw [noDispatch_iff]
  intro call hcall
  rw [pcApply] at hcall
  rcases List.mem_map.mp hcall with ⟨w, _, rfl⟩
  rcases hw : pipeline.pcTypes w.1 w.2.1 <;> simp [pcWriteCall, hw, isDispatch]

lemma noDispatch_ibApplyCalls (st : InputBufferState) :
    noDispatch (ibApply st).1 = true := by
  rw [noDispatch_iff]
  intro call hcall
  rw [ibApply, ibApplyCalls] at hcall
  rcases List.mem_append.mp hcall with hcall | hcall
  · split at hcall <;> simp at hcall
    rw [hcall]
    rfl
  · rcases hl : st.lastInputState with _ | is <;> rw [hl] at hcall
    · simp at hcall
    · rcases List.mem_flatMap.mp hcall with ⟨slot, _, hcall⟩
      rcases List.mem_flatMap.mp hcall with ⟨location, _, hcall⟩
      simp [ibSlotCalls] at hcall
      rcases hcall with rfl | rfl <;> rfl

lemma noDispatch_bindingCalls (b : Binding) : noDispatch (bindingCalls b) = true := by
  rw [noDispatch_iff]
  intro call hcall
  cases b with
  | uniformBuffer i bf o s => simp [bindingCalls] at hcall; rw [hcall]; rfl
  | sampler h units =>
    rcases List.mem_map.mp hcall with ⟨u, _, rfl⟩
    rfl
  | sampledTexture h t units =>
    rcases List.mem_flatMap.mp hcall with ⟨u, _, hcall⟩
    simp at hcall
    rcases hcall with rfl | rfl <;> rfl
  | storageBuffer i bf o s => simp [bindingCalls] at hcall; rw [hcall]; rfl

lemma noDispatch_dsClearCall (rp : RenderPassInfo) (i : Nat) (call : GLCall)
    (h : call ∈ (subpassDSClearCall rp i).toList) : isDispatch call = false := by
  rw [subpassDSClearCall] at h
  split_ifs at h <;> simp at h <;> (rw [h]; rfl)

lemma noDispatch_append (a b : List GLCall) :
    noDispatch (a ++ b) = (noDispatch a && noDispatch b) := by
  simp [noDispatch, List.all_append]

lemma noDispatch_map_true {A : Type} (f : A → GLCall) (l : List A)
    (hf : ∀ a, isDispatch (f a) = false) : noDispatch (List.map f l) = true := by
  rw [noDispatch_iff]
  intro call hcall
  rcases List.mem_map.mp hcall with ⟨a, _, rfl⟩
  exact hf a

lemma noDispatch_beginSubpassCalls (rp : RenderPassInfo) (fb : FramebufferInfo)
    (i fbo : Nat) : noDispatch (beginSubpassCalls rp fb i fbo) = true := by
  rw [beginSubpassCalls]
  simp only [noDispatch_append, Bool.and_eq_true]
  refine ⟨⟨⟨⟨⟨⟨rfl, ?_⟩, rfl⟩, ?_⟩, ?_⟩, ?_⟩, rfl⟩
  · exact noDispatch_map_true _ _ fun a => rfl
  · split <;> rfl
  · exact noDispatch_map_true _ _ fun a => rfl
  · rw [noDispatch_iff]
    exact noDispatch_dsClearCall rp i

lemma noDispatch_bindGroupCalls (bindings : List Binding) :
    noDispatch (List.flatMap bindings bindingCalls) = true := by
  rw [noDispatch_iff]
  intro call hcall
  rcases List.mem_flatMap.mp hcall with ⟨bnd, _, hmem⟩
  exact (noDispatch_iff (bindingCalls bnd)).mp (noDispatch_bindingCalls bnd) call hmem

lemma fenced_of_noDispatch (l : List GLCall) (h : noDispatch l = true) :
    fencedTrace l = true ∧ lastNotDispatch l = true :=
  ⟨noDispatch_fencedTrace l h, noDispatch_lastNotDispatch l h⟩

lemma execCmd_fenced (st : ExecState) (c : Cmd) :
    fencedTrace (execCmd st c).2 = true ∧ lastNotDispatch (execCmd st c).2 = true := by
  cases c with
  | beginRenderSubpass =>
    exact fenced_of_noDispatch _ (noDispatch_beginSubpassCalls _ _ _ _)
  | dispatch x y z =>
    constructor
    · apply fencedTrace_append
      · exact noDispatch_fencedTrace _ (noDispatch_pcApplyCalls _ _)
      · show (decide (GL_ALL_BARRIER_BITS = GL_ALL_BARRIER_BITS) &&
          fencedTrace [GLCall.memoryBarrier GL_ALL_BARRIER_BITS]) = true
        rw [Bool.and_eq_true]
        exact ⟨decide_eq_true rfl, rfl⟩
      · exact noDispatch_lastNotDispatch _ (noDispatch_pcApplyCalls _ _)
    · show lastNotDispatch ((pcApply _ st.pushConstants).1 ++
        [GLCall.dispatchCompute x y z, GLCall.memoryBarrier GL_ALL_BARRIER_BITS]) = true
      rw [lastNotDispatch_append, if_neg (by simp)]
      rfl
  | drawArrays vertexCount instanceCount firstVertex firstInstance =>
    apply fenced_of_noDispatch
    show noDispatch ((pcApply _ st.pushConstants).1 ++ (ibApply st.inputBuffers).1 ++ _)
      = true
    rw [noDispatch_append, noDispatch_append, Bool.and_eq_true, Bool.and_eq_true]
    exact ⟨⟨noDispatch_pcApplyCalls _ _, noDispatch_ibApplyCalls _⟩, by split <;> rfl⟩
  | drawElements indexCount instanceCount firstIndex firstInstance =>
    apply fenced_of_noDispatch
    show noDispatch ((pcApply _ st.pushConstants).1 ++ (ibApply st.inputBuffers).1 ++ _)
      = true
    rw [noDispatch_append, noDispatch_append, Bool.and_eq_true, Bool.and_eq_true]
    exact ⟨⟨noDispatch_pcApplyCalls _ _, noDispatch_ibApplyCalls _⟩, by split <;> rfl⟩
  | setBindGroup bindings => exact fenced_of_noDispatch _ (noDispatch_bindGroupCalls bindings)
  | beginComputePass => exact ⟨rfl, rfl⟩
  | beginRenderPass renderPass framebuffer => exact ⟨rfl, rfl⟩
  | copyBufferToBuffer a b c d e => exact ⟨rfl, rfl⟩
  | copyBufferToTexture a b c d e f g h i j k => exact ⟨rfl, rfl⟩
  | copyTextureToBuffer a b c d e f g h i j => exact ⟨rfl, rfl⟩
  | endComputePass => exact ⟨rfl, rfl⟩
  | endRenderPass => exact ⟨rfl, rfl⟩
  | endRenderSubpass => exact ⟨rfl, rfl⟩
  | setComputePipeline pipeline => exact ⟨rfl, rfl⟩
  | setRenderPipeline pipeline => exact ⟨rfl, rfl⟩
  | setPushConstants stages count offset data => exact ⟨rfl, rfl⟩
  | setStencilReference reference => exact ⟨rfl, rfl⟩
  | setBlendColor r g b a => exact ⟨rfl, rfl⟩
  | setIndexBuffer buffer offset => exact ⟨rfl, rfl⟩
  | setVertexBuffers a b c d => exact ⟨rfl, rfl⟩
  | transitionBufferUsage => exact ⟨rfl, rfl⟩
  | transitionTextureUsage => exact ⟨rfl, rfl⟩

lemma execCmds_fenced (cmds : List Cmd) (st : ExecState) :
    fencedTrace (execCmds st cmds).2 = true ∧
      lastNotDispatch (execCmds st cmds).2 = true := by
  induction cmds generalizing st with
  | nil => exact ⟨rfl, rfl⟩
  | cons c cs ih =>
    have hc := execCmd_fenced st c
    have hr := ih (execCmd st c).1
    have hcalls : (execCmds st (c :: cs)).2 =
        (execCmd st c).2 ++ (execCmds (execCmd st c).1 cs).2 := rfl
    rw [hcalls]
    constructor
    · exact fencedTrace_append _ _ hc.1 hr.1 hc.2
    · rw [lastNotDispatch_append]
      by_cases hnil : (execCmds (execCmd st c).1 cs).2 = []
      · rw [if_pos hnil]
        exact hc.2
      · rw [if_neg hnil]
        exact hr.2

lemma Execute_fenced (cmds : List Cmd) : fencedTrace (Execute cmds) = true := by
  have h := execCmds_fenced cmds initialExecState
  show fencedTrace ((execCmds initialExecState cmds).2 ++ [GLCall.bindSampler 0 0]) = true
  exact fencedTrace_append _ _ h.1 rfl h.2

lemma sum_map_range_single (g : Nat → Nat) (n f : Nat) (hf : f < n)
    (h0 : ∀ i, i ≠ f → g i = 0) : (List.map g (List.range n)).sum = g f := by
  induction n with
  | zero => omega
  | succ m ih =>
    rw [List.range_succ, List.map_append, List.sum_append]
    by_cases hfm : f = m
    · subst hfm
      have hz : (List.map g (List.range f)).sum = 0 := by
        apply List.sum_eq_zero
        intro x hx
        rcases List.mem_map.mp hx with ⟨i, hi, rfl⟩
        exact h0 i (by have := List.mem_range.mp hi; omega)
      simp [hz]
    · have hfm' : f < m := by omega
      rw [ih hfm']
      have : g m = 0 := h0 m (by omega)
      simp [this]

lemma colorClearsAt_ne (rp : RenderPassInfo) (slot i : Nat)
    (hne : (rp.attachments slot).firstSubpass ≠ i) : colorClearsAt rp i slot = 0 := by
  rw [colorClearsAt, subpassColorClearLocs, List.filter_filter, List.length_eq_zero]
  apply List.filter_eq_nil_iff.mpr
  intro loc _
  intro hpred
  rw [Bool.and_eq_true, Bool.and_eq_true] at hpred
  have hslot : (rp.subpasses i).colorAttachments loc = slot :=
    of_decide_eq_true hpred.1
  have hfirst : (rp.attachments ((rp.subpasses i).colorAttachments loc)).firstSubpass = i :=
    of_decide_eq_true hpred.2.1
  rw [hslot] at hfirst
  exact hne hfirst

lemma colorClearsAt_first (rp : RenderPassInfo) (slot : Nat)
    (hclear : (rp.attachments slot).colorLoadOp = LoadOp.clear) :
    colorClearsAt rp (rp.attachments slot).firstSubpass slot =
      (List.filter
        (fun location =>
          decide ((rp.subpasses (rp.attachments slot).firstSubpass).colorAttachments
            location = slot))
        (bitsOf kMaxColorAttachments
          (rp.subpasses (rp.attachments slot).firstSubpass).colorAttachmentsSet)).length := by
  rw [colorClearsAt, subpassColorClearLocs, List.filter_filter]
  apply congrArg List.length
  apply List.filter_congr
  intro loc _
  by_cases hp : (rp.subpasses (rp.attachments slot).firstSubpass).colorAttachments loc = slot
  · simp [hp, hclear]
  · simp [hp]

lemma dsClearsAt_ne (rp : RenderPassInfo) (slot i : Nat)
    (hne : (rp.attachments slot).firstSubpass ≠ i) : dsClearsAt rp i slot = 0 := by
  rw [dsClearsAt, if_neg]
  rintro ⟨hset, hslot, hsome⟩
  rw [subpassDSClearCall, if_pos hset, hslot, if_neg hne] at hsome
  cases hsome

lemma dsClearsAt_first (rp : RenderPassInfo) (slot : Nat)
    (hset : (rp.subpasses (rp.attachments slot).firstSubpass).depthStencilAttachmentSet
      = true)
    (hslot : (rp.subpasses (rp.attachments slot).firstSubpass).depthStencilAttachment
      = slot)
    (hor : (dsDoDepthClear rp (rp.attachments slot).firstSubpass ||
      dsDoStencilClear rp (rp.attachments slot).firstSubpass) = true) :
    dsClearsAt rp (rp.attachments slot).firstSubpass slot = 1 := by
  rw [dsClearsAt, if_pos]
  refine ⟨hset, hslot, ?_⟩
  rw [subpassDSClearCall, if_pos hset, hslot, if_pos rfl]
  rcases hd : dsDoDepthClear rp (rp.attachments slot).firstSubpass with _ | _ <;>
    rcases hs : dsDoStencilClear rp (rp.attachments slot).firstSubpass with _ | _ <;>
    simp [hd, hs] at hor ⊢

end NXT

namespace NXT

/-- C1: for a non-mappable buffer, `GetResourceTransitionBarrier` produces a
barrier exactly when the translated native states of the current and target
usage differ; in particular a second transition request to the same target
usage (current = target) produces none, and abstract bitsets with equal native
states produce none. -/
theorem c1_barrier_iff_native_states_differ (allowed current target : BufferUsage)
    (hRead : allowed.mapRead = false) (hWrite : allowed.mapWrite = false) :
    ((GetResourceTransitionBarrier allowed current target).isSome ↔
      D3D12BufferUsage current ≠ D3D12BufferUsage target) ∧
    GetResourceTransitionBarrier allowed target target = none := by
  constructor
  · unfold GetResourceTransitionBarrier
    rw [hRead, hWrite]
    by_cases h : D3D12BufferUsage current = D3D12BufferUsage target <;> simp [h]
  · unfold GetResourceTransitionBarrier
    rw [hRead, hWrite]
    simp

/-- Witness for C1 at a concrete non-mappable buffer: allowed usage with no
map bits, current usage `{TransferDst}`, target usage `{Vertex}`. -/
theorem c1_barrier_iff_native_states_differ_witness :
    ((GetResourceTransitionBarrier
        ⟨false, false, false, true, false, true, false, false⟩
        ⟨false, false, false, true, false, false, false, false⟩
        ⟨false, false, false, false, false, true, false, false⟩).isSome ↔
      D3D12BufferUsage ⟨false, false, false, true, false, false, false, false⟩ ≠
        D3D12BufferUsage ⟨false, false, false, false, false, true, false, false⟩) ∧
    GetResourceTransitionBarrier
        ⟨false, false, false, true, false, true, false, false⟩
        ⟨false, false, false, false, false, true, false, false⟩
        ⟨false, false, false, false, false, true, false, false⟩ = none :=
  c1_barrier_iff_native_states_differ
    ⟨false, false, false, true, false, true, false, false⟩
    ⟨false, false, false, true, false, false, false, false⟩
    ⟨false, false, false, false, false, true, false, false⟩ rfl rfl

/-- C2: a buffer whose allowed usage is exactly `{MapRead, TransferDst}` or
exactly `{MapWrite, TransferSrc}` never gets a transition barrier, for every
pair of usage bitsets, and `TransitionUsageImpl` records no barrier. -/
theorem c2_mapped_buffers_never_transition (allowed current target : BufferUsage)
    (h : allowed = mapReadTransferDstUsage ∨ allowed = mapWriteTransferSrcUsage) :
    GetResourceTransitionBarrier allowed current target = none ∧
    TransitionUsageImpl allowed current target = [] := by
  have hnone : GetResourceTransitionBarrier allowed current target = none := by
    rcases h with h | h <;> subst h <;>
      simp [GetResourceTransitionBarrier, mapReadTransferDstUsage, mapWriteTransferSrcUsage]
  exact ⟨hnone, by simp [TransitionUsageImpl, hnone]⟩

/-- Witness for C2: the `{MapRead, TransferDst}` buffer asked to move from
`{MapRead}` to `{TransferDst}` emits nothing. -/
theorem c2_mapped_buffers_never_transition_witness :
    GetResourceTransitionBarrier mapReadTransferDstUsage
        ⟨true, false, false, false, false, false, false, false⟩
        ⟨false, false, false, true, false, false, false, false⟩ = none ∧
    TransitionUsageImpl mapReadTransferDstUsage
        ⟨true, false, false, false, false, false, false, false⟩
        ⟨false, false, false, true, false, false, false, false⟩ = [] :=
  c2_mapped_buffers_never_transition mapReadTransferDstUsage
    ⟨true, false, false, false, false, false, false, false⟩
    ⟨false, false, false, true, false, false, false, false⟩ (Or.inl rfl)

/-- C6: the abstract-usage-to-native-state table is a union homomorphism:
translating the union of two usage bitsets gives the bitwise OR of their
individual native states. -/
theorem c6_d3d12BufferUsage_union_hom (a b : BufferUsage) :
    D3D12BufferUsage (a.union b) = D3D12BufferUsage a ||| D3D12BufferUsage b := by
  rw [D3D12BufferUsage_eq_stateOf, D3D12BufferUsage_eq_stateOf a,
    D3D12BufferUsage_eq_stateOf b]
  show d3d12StateOf (a.transferSrc || b.transferSrc) (a.transferDst || b.transferDst)
      ((a.vertex || b.vertex) || (a.uniform || b.uniform)) (a.index || b.index)
      (a.storage || b.storage) = _
  rw [bool_or_or_or_comm]
  exact d3d12StateOf_or _ _ _ _ _ _ _ _ _ _

/-- C10: buffer creation places a MapRead buffer on the READBACK heap with
COPY_DEST folded into its initial state (MapRead wins over MapWrite), a
MapWrite-only buffer on the UPLOAD heap with GENERIC_READ folded in, and any
other buffer on the DEFAULT heap with exactly the translated current usage. -/
theorem c10_buffer_creation_placement (allowed current : BufferUsage) :
    (allowed.mapRead = true →
      (bufferCreationState allowed current).1 = HeapType.readback ∧
      (bufferCreationState allowed current).2 ||| D3D12_RESOURCE_STATE_COPY_DEST =
        (bufferCreationState allowed current).2) ∧
    (allowed.mapRead = false → allowed.mapWrite = true →
      (bufferCreationState allowed current).1 = HeapType.upload ∧
      (bufferCreationState allowed current).2 ||| D3D12_RESOURCE_STATE_GENERIC_READ =
        (bufferCreationState allowed current).2) ∧
    (allowed.mapRead = false → allowed.mapWrite = false →
      (bufferCreationState allowed current).1 = HeapType.default ∧
      (bufferCreationState allowed current).2 = D3D12BufferUsage current) := by
  have absorb : ∀ x c : Nat, (x ||| c) ||| c = x ||| c := by
    intro x c
    rw [Nat.lor_assoc, nat_lor_self]
  refine ⟨fun h1 => ?_, fun h1 h2 => ?_, fun h1 h2 => ?_⟩ <;>
    simp [bufferCreationState, D3D12HeapType, h1, *, absorb]

/-- Witness for C10, exercising all three heap branches at concrete allowed
usages (`{MapRead, MapWrite}`, `{MapWrite}`, `{Vertex}`) with current usage
`{TransferDst}`. -/
theorem c10_buffer_creation_placement_witness :
    ((bufferCreationState ⟨true, true, false, false, false, false, false, false⟩
        ⟨false, false, false, true, false, false, false, false⟩).1 = HeapType.readback ∧
      (bufferCreationState ⟨true, true, false, false, false, false, false, false⟩
        ⟨false, false, false, true, false, false, false, false⟩).2 |||
          D3D12_RESOURCE_STATE_COPY_DEST =
        (bufferCreationState ⟨true, true, false, false, false, false, false, false⟩
          ⟨false, false, false, true, false, false, false, false⟩).2) ∧
    ((bufferCreationState ⟨false, true, false, false, false, false, false, false⟩
        ⟨false, false, false, true, false, false, false, false⟩).1 = HeapType.upload ∧
      (bufferCreationState ⟨false, true, false, false, false, false, false, false⟩
        ⟨false, false, false, true, false, false, false, false⟩).2 |||
          D3D12_RESOURCE_STATE_GENERIC_READ =
        (bufferCreationState ⟨false, true, false, false, false, false, false, false⟩
          ⟨false, false, false, true, false, false, false, false⟩).2) ∧
    ((bufferCreationState ⟨false, false, false, false, false, true, false, false⟩
        ⟨false, false, false, true, false, false, false, false⟩).1 = HeapType.default ∧
      (bufferCreationState ⟨false, false, false, false, false, true, false, false⟩
        ⟨false, false, false, true, false, false, false, false⟩).2 =
        D3D12BufferUsage ⟨false, false, false, true, false, false, false, false⟩) :=
  ⟨(c10_buffer_creation_placement _ _).1 rfl,
   ((c10_buffer_creation_placement ⟨false, true, false, false, false, false, false, false⟩
      ⟨false, false, false, true, false, false, false, false⟩).2.1 rfl rfl),
   ((c10_buffer_creation_placement ⟨false, false, false, false, false, true, false, false⟩
      ⟨false, false, false, true, false, false, false, false⟩).2.2 rfl rfl)⟩

/-- C3 (counterexample): after `PushConstantTracker::Apply`, dirty bits of
slots the pipeline does not consume do NOT remain set — `Apply` resets every
dirty bit.  Concretely, with slot 0 dirty and a pipeline consuming nothing,
the claim predicts the vertex-stage bit 0 stays set, but it is cleared. -/
theorem c3_unconsumed_dirty_cleared_counterexample :
    (dirtySlot0State.dirtyBits Stage.vertex).testBit 0 = true ∧
    (noPCPipeline.pcMask Stage.vertex).testBit 0 = false ∧
    ((pcApply noPCPipeline dirtySlot0State).2.dirtyBits Stage.vertex).testBit 0 = false := by
  exact ⟨rfl, rfl, rfl⟩

/-- C3 (amended): `PushConstantTracker::Apply` writes exactly the slots that
are both dirty and in the pipeline's per-stage consumed mask — each such slot
once, with the tracked (last-set) value — and afterwards ALL dirty bits of
every stage are cleared, including those of unconsumed slots (the source
resets the whole mask; a later pipeline bind rebuilds dirty bits from that
pipeline's own mask). -/
theorem c3_apply_writes_exactly_dirty_consumed (pipeline : PipelineInfo)
    (st : PushConstantState) (s : Stage) (c : Nat) :
    ((s, c, st.values s c) ∈ pcApplyWrites pipeline st ↔
      c < kMaxPushConstants ∧ Nat.testBit (st.dirtyBits s) c = true ∧
        Nat.testBit (pipeline.pcMask s) c = true) ∧
    (∀ v, (s, c, v) ∈ pcApplyWrites pipeline st → v = st.values s c) ∧
    List.countP (fun w => decide (w.1 = s) && decide (w.2.1 = c))
        (pcApplyWrites pipeline st) =
      (if c < kMaxPushConstants ∧ Nat.testBit (st.dirtyBits s) c = true ∧
          Nat.testBit (pipeline.pcMask s) c = true then 1 else 0) ∧
    (pcApply pipeline st).2.dirtyBits s = 0 := by
  refine ⟨?_, ?_, ?_, rfl⟩
  · rw [pcApplyWrites_eq_stageWrites]
    simp only [List.append_eq, List.mem_append, pcStageWrites_mem, bitsOf_mem,
      Nat.testBit_land, Bool.and_eq_true]
    cases s <;> simp [and_assoc]
  · intro v hv
    rw [pcApplyWrites_eq_stageWrites] at hv
    simp only [List.append_eq, List.mem_append, pcStageWrites_mem] at hv
    rcases hv with ⟨_, _, rfl⟩ | ⟨_, _, rfl⟩ | ⟨_, _, rfl⟩ <;> rfl
  · rw [pcApplyWrites_eq_stageWrites, List.append_eq, List.append_eq,
      List.countP_append, List.countP_append, pcStageWrites_countP,
      pcStageWrites_countP, pcStageWrites_countP]
    cases s <;>
      simp [Nat.testBit_land, Bool.and_eq_true, and_assoc]

/-- Witness for C3 (amended) at a pipeline consuming slot 0 and a state with
slot 0 dirty holding 42: the write list contains the slot with its value, and
any value written for that slot is the tracked one. -/
theorem c3_apply_writes_exactly_dirty_consumed_witness :
    ((Stage.vertex, 0, value42State.values Stage.vertex 0) ∈
        pcApplyWrites onePCPipeline value42State) ∧
    42 = value42State.values Stage.vertex 0 :=
  ⟨(c3_apply_writes_exactly_dirty_consumed onePCPipeline value42State Stage.vertex 0).1.mpr
      (by decide),
   (c3_apply_writes_exactly_dirty_consumed onePCPipeline value42State Stage.vertex 0).2.1 42
      (by decide)⟩

/-- C4 (counterexample): in the spec's example — vertex buffers bound at
slots `[2, 5)`, then a switch to a layout living on slots `{0, 2, 4}` —
`Apply` iterates slot 0 as well (the switch marked every live slot dirty,
slot 0 included), so it does not bind exactly `{2, 4}`. -/
theorem c4_example_binds_slot0_counterexample :
    0 ∈ ibAppliedSlots exampleIBState ∧ ibAppliedSlots exampleIBState ≠ [2, 4] := by
  exact ⟨by decide, by decide⟩

/-- C4 (amended): a pipeline switch whose input layout differs from the
cached one ORs the new layout's live-slot mask into the vertex dirty mask and
unconditionally marks the index buffer dirty; a subsequent `Apply` (re)binds
exactly the slots that are both dirty and live in the bound layout.  In the
example — vertex buffers bound at slots `[2, 5)`, then a layout on slots
`{0, 2, 4}` — `Apply` therefore binds exactly `{0, 2, 4}`: slot 0 is dirty
(the switch marked it), slot 3 is not live. -/
theorem c4_input_tracker_dirty_live (st : InputBufferState) (is : InputStateInfo) :
    (Option.map InputStateInfo.id st.lastInputState ≠ some is.id →
      (ibOnSetPipeline st is).dirtyVertexBuffers =
          st.dirtyVertexBuffers ||| is.inputsSetMask ∧
      (ibOnSetPipeline st is).indexBufferDirty = true ∧
      (ibOnSetPipeline st is).lastInputState = some is) ∧
    (∀ is0, st.lastInputState = some is0 →
      (ibAppliedSlots st).Nodup ∧
      ∀ slot, slot ∈ ibAppliedSlots st ↔
        slot < kMaxVertexInputs ∧ Nat.testBit st.dirtyVertexBuffers slot = true ∧
          Nat.testBit is0.inputsSetMask slot = true) ∧
    ibAppliedSlots exampleIBState = [0, 2, 4] := by
  refine ⟨fun hdiff => ?_, fun is0 h => ?_, by decide⟩
  · rw [ibOnSetPipeline, if_neg hdiff]
    exact ⟨rfl, rfl, rfl⟩
  · rw [ibAppliedSlots, h]
    refine ⟨bitsOf_nodup _ _, fun slot => ?_⟩
    rw [bitsOf_mem, Nat.testBit_land]
    simp [Bool.and_eq_true, and_assoc]

/-- Witness for C4 (amended), at the example's concrete states: the switch
effects on `preSwitchIBState`, and the applied-slot characterization of
`exampleIBState` evaluated at slot 0. -/
theorem c4_input_tracker_dirty_live_witness :
    ((ibOnSetPipeline preSwitchIBState exampleLayout).dirtyVertexBuffers =
        preSwitchIBState.dirtyVertexBuffers ||| exampleLayout.inputsSetMask ∧
      (ibOnSetPipeline preSwitchIBState exampleLayout).indexBufferDirty = true ∧
      (ibOnSetPipeline preSwitchIBState exampleLayout).lastInputState =
        some exampleLayout) ∧
    (ibAppliedSlots exampleIBState).Nodup ∧
    (0 ∈ ibAppliedSlots exampleIBState ↔
      0 < kMaxVertexInputs ∧ Nat.testBit exampleIBState.dirtyVertexBuffers 0 = true ∧
        Nat.testBit exampleLayout.inputsSetMask 0 = true) :=
  ⟨(c4_input_tracker_dirty_live preSwitchIBState exampleLayout).1 (by decide),
   ((c4_input_tracker_dirty_live exampleIBState exampleLayout).2.1 exampleLayout rfl).1,
   ((c4_input_tracker_dirty_live exampleIBState exampleLayout).2.1 exampleLayout rfl).2 0⟩

/-- C7: in every command stream executed by the OpenGL executor, every
`glDispatchCompute` in the emitted GL trace is immediately followed by
`glMemoryBarrier(GL_ALL_BARRIER_BITS)` — no dispatch is left unfenced before
the next call. -/
theorem c7_dispatch_followed_by_full_barrier (cmds : List Cmd) (i x y z : Nat)
    (h : (Execute cmds).get? i = some (GLCall.dispatchCompute x y z)) :
    (Execute cmds).get? (i + 1) = some (GLCall.memoryBarrier GL_ALL_BARRIER_BITS) :=
  fencedTrace_get (Execute cmds) (Execute_fenced cmds) i x y z h

/-- Witness for C7: a stream that binds a compute pipeline and dispatches
once; the dispatch sits at index 1 of the trace and index 2 is the full
barrier. -/
theorem c7_dispatch_followed_by_full_barrier_witness :
    (Execute [Cmd.setComputePipeline emptyPipeline, Cmd.dispatch 1 1 1]).get? (1 + 1) =
      some (GLCall.memoryBarrier GL_ALL_BARRIER_BITS) :=
  c7_dispatch_followed_by_full_barrier
    [Cmd.setComputePipeline emptyPipeline, Cmd.dispatch 1 1 1] 1 1 1 1 (by rfl)

/-- C5: a color attachment whose load op is `Clear` is cleared exactly once
over the whole pass, during the `BeginRenderSubpass` whose index equals the
attachment's `firstSubpass` (assuming that subpass references it at exactly
one live location); later subpasses referencing it clear nothing.  Likewise a
depth/stencil attachment with a `Clear`-able depth or stencil load op is
cleared exactly once, at its `firstSubpass`. -/
theorem c5_clear_applied_once_at_first_subpass (rp : RenderPassInfo) (slot : Nat) :
    ((rp.attachments slot).colorLoadOp = LoadOp.clear →
      (rp.attachments slot).firstSubpass < rp.subpassCount →
      (List.filter
        (fun location =>
          decide ((rp.subpasses (rp.attachments slot).firstSubpass).colorAttachments
            location = slot))
        (bitsOf kMaxColorAttachments
          (rp.subpasses (rp.attachments slot).firstSubpass).colorAttachmentsSet)).length
        = 1 →
      colorClearCount rp slot = 1 ∧
        ∀ i, i ≠ (rp.attachments slot).firstSubpass → colorClearsAt rp i slot = 0) ∧
    ((rp.subpasses (rp.attachments slot).firstSubpass).depthStencilAttachmentSet = true →
      (rp.subpasses (rp.attachments slot).firstSubpass).depthStencilAttachment = slot →
      (rp.attachments slot).firstSubpass < rp.subpassCount →
      (dsDoDepthClear rp (rp.attachments slot).firstSubpass ||
        dsDoStencilClear rp (rp.attachments slot).firstSubpass) = true →
      dsClearCount rp slot = 1 ∧
        ∀ i, i ≠ (rp.attachments slot).firstSubpass → dsClearsAt rp i slot = 0) := by
  constructor
  · intro hclear hf honce
    have hne : ∀ i, i ≠ (rp.attachments slot).firstSubpass → colorClearsAt rp i slot = 0 :=
      fun i hi => colorClearsAt_ne rp slot i (Ne.symm hi)
    refine ⟨?_, hne⟩
    rw [colorClearCount,
      sum_map_range_single (fun i => colorClearsAt rp i slot) rp.subpassCount
        (rp.attachments slot).firstSubpass hf hne]
    rw [colorClearsAt_first rp slot hclear]
    exact honce
  · intro hset hslot hf hor
    have hne : ∀ i, i ≠ (rp.attachments slot).firstSubpass → dsClearsAt rp i slot = 0 :=
      fun i hi => dsClearsAt_ne rp slot i (Ne.symm hi)
    refine ⟨?_, hne⟩
    rw [dsClearCount,
      sum_map_range_single (fun i => dsClearsAt rp i slot) rp.subpassCount
        (rp.attachments slot).firstSubpass hf hne]
    exact dsClearsAt_first rp slot hset hslot hor

/-- Witness for C5 on `exampleRenderPass`: color attachment 0 (first used and
cleared in subpass 0, referenced again in subpass 1) is cleared exactly once
and not in subpass 1; depth/stencil attachment 1 likewise. -/
theorem c5_clear_applied_once_at_first_subpass_witness :
    colorClearCount exampleRenderPass 0 = 1 ∧
    colorClearsAt exampleRenderPass 1 0 = 0 ∧
    dsClearCount exampleRenderPass 1 = 1 ∧
    dsClearsAt exampleRenderPass 1 1 = 0 :=
  ⟨((c5_clear_applied_once_at_first_subpass exampleRenderPass 0).1 (by decide) (by decide)
      (by decide)).1,
   ((c5_clear_applied_once_at_first_subpass exampleRenderPass 0).1 (by decide) (by decide)
      (by decide)).2 1 (by decide),
   ((c5_clear_applied_once_at_first_subpass exampleRenderPass 1).2 (by decide) (by decide)
      (by decide) (by decide)).1,
   ((c5_clear_applied_once_at_first_subpass exampleRenderPass 1).2 (by decide) (by decide)
      (by decide) (by decide)).2 1 (by decide)⟩

end NXT
